import Mathlib

/-!
Relay registry, packet router and stream session handler

A shallow embedding of `backend/internal/relay/relay.go` and
`backend/internal/streaming/service.go`.

* Go maps are total functions into `Option`; `none` is an absent key.
* The mutex of `RelayManager` is not modelled: every method runs atomically.
* Calls of `Send` on a stream are recorded, in order, in `World.sent`; what a
  `Send` returns is decided by a `Transport`, which may depend on every
  earlier call.
* The order in which Go ranges over a map is a parameter (`MapOrder`).
* `uuid.New().String()` is an input of the code that calls it.
-/

namespace pb

/-- Modelled from the spec: the generated package `pb/streaming` is not among
the sources. Section 6 gives `Role: UNKNOWN | DESKTOP | MOBILE`; the constant
names are the ones the Go code uses (`pb.DeviceType_DESKTOP`, ...). -/
inductive DeviceType where
  | UNKNOWN_DEVICE
  | DESKTOP
  | MOBILE
  deriving DecidableEq, Repr

/-- Modelled from the spec: the text `%s` prints for a `DeviceType`, the name
of the enum value. -/
def DeviceType.name : DeviceType → String
  | .UNKNOWN_DEVICE => "UNKNOWN_DEVICE"
  | .DESKTOP => "DESKTOP"
  | .MOBILE => "MOBILE"

/-- All values of `DeviceType`. -/
def DeviceType.all : List DeviceType := [.UNKNOWN_DEVICE, .DESKTOP, .MOBILE]

/-- Modelled from the spec: packet kind, `DATA | CONTROL` (section 6). -/
inductive PacketType where
  | DATA
  | CONTROL
  deriving DecidableEq, Repr

/-- Modelled from the spec: control kind, `ACK | ERROR` (section 6). -/
inductive ControlType where
  | ACK
  | ERROR
  deriving DecidableEq, Repr

/-- Modelled from the spec: `ControlMessage { kind: ACK | ERROR, text: string }`,
with the field names of the Go code. -/
structure ControlMessage where
  ControlType : ControlType
  Message : String
  deriving DecidableEq, Repr

/-- Modelled from the spec: the payload of a packet, application bytes or a
control message. -/
inductive Payload where
  | Data (bytes : List Nat)
  | Control (c : ControlMessage)
  deriving DecidableEq, Repr

/-- Modelled from the spec: `Packet { id, user, source, destination, kind,
payload }`, with the field names of the Go code (`Type_` is the field `Type`). -/
structure Packet where
  PacketId : String
  UserId : String
  Source : DeviceType
  Destination : DeviceType
  Type_ : PacketType
  Payload : Payload
  deriving DecidableEq, Repr

/-- Modelled from the spec: `{desktopOnline: bool, mobileOnline: bool}`. -/
structure PairingInfo where
  DesktopOnline : Bool
  MobileOnline : Bool
  deriving DecidableEq, Repr

/-- Modelled from the spec: request of the one-shot registration,
`RegisterDevice(user, role)`. -/
structure RegisterRequest where
  UserId : String
  DeviceType : DeviceType
  deriving DecidableEq, Repr

/-- Modelled from the spec: `{success, sessionId, pairingInfo}`. -/
structure RegisterResponse where
  Success : Bool
  SessionId : String
  PairingInfo : PairingInfo
  deriving DecidableEq, Repr

/-- Modelled from the spec: request of `GetPairingStatus(user)`. -/
structure PairingStatusRequest where
  UserId : String
  deriving DecidableEq, Repr

/-- Modelled from the spec: `{paired: bool, pairingInfo}`. -/
structure PairingStatusResponse where
  Paired : Bool
  PairingInfo : PairingInfo
  deriving DecidableEq, Repr

/-- Identity of a stream object (`pb.StreamingService_StreamServer`). -/
abbrev StreamServer := Nat

end pb

namespace relay

open pb

/-- Go `error` values: `none` is `nil`, `some msg` an error whose `Error()`
text is `msg`. -/
abbrev GoError := Option String

/-- The struct `DeviceStream` of relay.go. -/
structure DeviceStream where
  UserID : String
  DeviceType : pb.DeviceType
  Stream : StreamServer
  deriving DecidableEq, Repr

/-- One call of `Send` on a stream: the stream, the packet passed, and what
the call returned. -/
structure SendEvent where
  stream : StreamServer
  packet : Packet
  err : GoError
  deriving DecidableEq, Repr

/-- What the next `Send` on a stream returns, given all earlier calls. -/
abbrev Transport := List SendEvent → StreamServer → Packet → GoError

/-- The inner map `map[pb.DeviceType]*DeviceStream`. -/
abbrev DeviceMap := pb.DeviceType → Option DeviceStream

/-- The result of `make(map[pb.DeviceType]*DeviceStream)`. -/
def emptyDeviceMap : DeviceMap := fun _ => none

/-- Go `len` of an inner map. -/
def mapLen (m : DeviceMap) : Nat :=
  (DeviceType.all.filter (fun d => (m d).isSome)).length

/-- The struct `RelayManager` of relay.go: userID -> deviceType -> stream. -/
structure RelayManager where
  connections : String → Option DeviceMap

/-- An order in which `range` may visit the keys of an inner map: every
`DeviceType` once. -/
structure MapOrder where
  keys : List pb.DeviceType
  nodup : keys.Nodup
  complete : ∀ d, d ∈ keys

/-- The key/value pairs `range userConns` yields under the order `ord`. -/
def rangeMap (ord : MapOrder) (m : DeviceMap) : List (pb.DeviceType × DeviceStream) :=
  ord.keys.filterMap (fun d => (m d).map (fun s => (d, s)))

/-- The relay manager together with the record of every `Send` made on any
stream and of every `UnregisterDevice` call made by a closing session. -/
structure World where
  relay : RelayManager
  sent : List SendEvent
  unregisterCalls : List (String × pb.DeviceType)

/-- `NewRelayManager` of relay.go. -/
def NewRelayManager : RelayManager :=
  { connections := fun _ => none }

/-- The expression `rm.connections[userID][deviceType]` with its `ok` flag:
the spec calls it `lookup(user, role)`. -/
def RelayManager.lookup (rm : RelayManager) (userID : String)
    (deviceType : pb.DeviceType) : Option DeviceStream :=
  match rm.connections userID with
  | none => none
  | some userConns => userConns deviceType

/-- `RelayManager.RegisterDevice` of relay.go. The branch on an existing
connection only logs. -/
def RelayManager.RegisterDevice (rm : RelayManager) (userID : String)
    (deviceType : pb.DeviceType) (stream : StreamServer) : RelayManager × GoError :=
  let conns1 : String → Option DeviceMap :=
    match rm.connections userID with
    | none => Function.update rm.connections userID (some emptyDeviceMap)
    | some _ => rm.connections
  let userConns : DeviceMap :=
    match conns1 userID with
    | none => emptyDeviceMap
    | some m => m
  let userConns2 : DeviceMap :=
    Function.update userConns deviceType
      (some { UserID := userID, DeviceType := deviceType, Stream := stream })
  ({ connections := Function.update conns1 userID (some userConns2) }, none)

/-- `RelayManager.UnregisterDevice` of relay.go. -/
def RelayManager.UnregisterDevice (rm : RelayManager) (userID : String)
    (deviceType : pb.DeviceType) : RelayManager :=
  match rm.connections userID with
  | none => rm
  | some userConns =>
    let userConns2 : DeviceMap := Function.update userConns deviceType none
    if mapLen userConns2 = 0 then
      { connections := Function.update rm.connections userID none }
    else
      { connections := Function.update rm.connections userID (some userConns2) }

/-- `RelayManager.RoutePacket` of relay.go. -/
def RoutePacket (tr : Transport) (w : World) (packet : Packet) : World × GoError :=
  match w.relay.connections packet.UserId with
  | none => (w, some ("no connections for user " ++ packet.UserId))
  | some userConns =>
    match userConns packet.Destination with
    | none =>
      (w, some ("destination device " ++ packet.Destination.name
        ++ " not connected for user " ++ packet.UserId))
    | some destStream =>
      match tr w.sent destStream.Stream packet with
      | some err =>
        ({ w with sent := w.sent ++ [⟨destStream.Stream, packet, some err⟩] }, some err)
      | none =>
        ({ w with sent := w.sent ++ [⟨destStream.Stream, packet, none⟩] }, none)

/-- `RelayManager.GetPairingInfo` of relay.go. -/
def RelayManager.GetPairingInfo (rm : RelayManager) (userID : String) : PairingInfo :=
  let info : PairingInfo := { DesktopOnline := false, MobileOnline := false }
  match rm.connections userID with
  | none => info
  | some userConns =>
    let info1 : PairingInfo :=
      match userConns DeviceType.DESKTOP with
      | some _ => { info with DesktopOnline := true }
      | none => info
    match userConns DeviceType.MOBILE with
    | some _ => { info1 with MobileOnline := true }
    | none => info1

/-- The loop of `BroadcastToUser` over the pairs still to visit, carrying the
record of sends and `lastErr`. -/
def broadcastLoop (tr : Transport) (packet : Packet) :
    List (pb.DeviceType × DeviceStream) → List SendEvent → GoError → List SendEvent × GoError
  | [], sent, lastErr => (sent, lastErr)
  | (_, stream) :: rest, sent, lastErr =>
    match tr sent stream.Stream packet with
    | some err =>
      broadcastLoop tr packet rest (sent ++ [⟨stream.Stream, packet, some err⟩]) (some err)
    | none =>
      broadcastLoop tr packet rest (sent ++ [⟨stream.Stream, packet, none⟩]) lastErr

/-- `RelayManager.BroadcastToUser` of relay.go. -/
def BroadcastToUser (tr : Transport) (ord : MapOrder) (w : World) (userID : String)
    (packet : Packet) : World × GoError :=
  match w.relay.connections userID with
  | none => (w, some ("no connections for user " ++ userID))
  | some userConns =>
    let r := broadcastLoop tr packet (rangeMap ord userConns) w.sent none
    ({ w with sent := r.1 }, r.2)

/-- A call of one of the methods of `RelayManager`. -/
inductive Call where
  | RegisterDevice (userID : String) (deviceType : pb.DeviceType) (stream : StreamServer)
  | UnregisterDevice (userID : String) (deviceType : pb.DeviceType)
  | RoutePacket (packet : Packet)
  | BroadcastToUser (ord : MapOrder) (userID : String) (packet : Packet)
  | GetPairingInfo (userID : String)

/-- The state after one call. -/
def Call.run (tr : Transport) (w : World) : Call → World
  | .RegisterDevice userID deviceType stream =>
    { w with relay := (w.relay.RegisterDevice userID deviceType stream).1 }
  | .UnregisterDevice userID deviceType =>
    { w with relay := w.relay.UnregisterDevice userID deviceType }
  | .RoutePacket packet => (relay.RoutePacket tr w packet).1
  | .BroadcastToUser ord userID packet => (relay.BroadcastToUser tr ord w userID packet).1
  | .GetPairingInfo _ => w

/-- The state after a sequence of calls. -/
def runCalls (tr : Transport) (w : World) (calls : List Call) : World :=
  calls.foldl (Call.run tr) w

/-- The state right after `NewRelayManager()`: nothing sent yet. -/
def initWorld : World :=
  { relay := NewRelayManager, sent := [], unregisterCalls := [] }

/-- No user of the outer map has an empty inner map. -/
def NoEmptyUser (rm : RelayManager) : Prop :=
  ∀ userID userConns, rm.connections userID = some userConns →
    ∃ d s, userConns d = some s

end relay

namespace streaming

open pb relay

/-- `formatPairingMessage` of service.go. -/
def formatPairingMessage (info : PairingInfo) : String :=
  if info.DesktopOnline && info.MobileOnline then
    "Both devices paired"
  else if info.DesktopOnline then
    "Desktop online, waiting for mobile"
  else if info.MobileOnline then
    "Mobile online, waiting for desktop"
  else
    "No devices online"

/-- `Service.RegisterDevice` of service.go; `sessionID` is the value of
`uuid.New().String()`. The returned error is always `nil`. -/
def Service.RegisterDevice (w : World) (sessionID : String) (req : RegisterRequest) :
    World × RegisterResponse × GoError :=
  let pairingInfo := w.relay.GetPairingInfo req.UserId
  (w, { Success := true, SessionId := sessionID, PairingInfo := pairingInfo }, none)

/-- `Service.GetPairingStatus` of service.go. -/
def Service.GetPairingStatus (w : World) (req : PairingStatusRequest) :
    World × PairingStatusResponse × GoError :=
  let pairingInfo := w.relay.GetPairingInfo req.UserId
  let paired := pairingInfo.DesktopOnline && pairingInfo.MobileOnline
  (w, { Paired := paired, PairingInfo := pairingInfo }, none)

/-- What `stream.Recv()` returns. -/
inductive RecvResult where
  | packet (p : Packet)
  | EOF
  | err (e : String)
  deriving DecidableEq, Repr

/-- The inputs of one iteration of the loop of `Stream`: what `Recv` returns
and the value `uuid.New().String()` has if the iteration calls it. -/
structure StreamInput where
  recv : RecvResult
  uuid : String
  deriving DecidableEq, Repr

/-- The local variables of `Service.Stream`. -/
structure Session where
  userID : String
  deviceType : pb.DeviceType
  registered : Bool
  deriving DecidableEq, Repr

/-- The locals of `Stream` on entry. -/
def Session.start : Session :=
  { userID := "", deviceType := DeviceType.UNKNOWN_DEVICE, registered := false }

/-- The ACK packet `Stream` builds after registering. -/
def controlPacket (uuid : String) (userID : String) (deviceType : pb.DeviceType)
    (pairingInfo : PairingInfo) : Packet :=
  { PacketId := uuid
    UserId := userID
    Source := DeviceType.UNKNOWN_DEVICE
    Destination := deviceType
    Type_ := PacketType.CONTROL
    Payload := Payload.Control
      { ControlType := ControlType.ACK, Message := formatPairingMessage pairingInfo } }

/-- The ERROR packet `Stream` builds when routing failed with `err`. -/
def errorPacket (uuid : String) (userID : String) (deviceType : pb.DeviceType)
    (err : String) : Packet :=
  { PacketId := uuid
    UserId := userID
    Source := DeviceType.UNKNOWN_DEVICE
    Destination := deviceType
    Type_ := PacketType.CONTROL
    Payload := Payload.Control { ControlType := ControlType.ERROR, Message := err } }

/-- One iteration of the `for` loop of `Service.Stream` on the stream `stream`.
The third component is `none` when the loop goes on and `some e` when `Stream`
returns `e`. -/
def streamIter (tr : Transport) (stream : StreamServer) (w : World) (s : Session)
    (inp : StreamInput) : World × Session × Option GoError :=
  match inp.recv with
  | .EOF => (w, s, some none)
  | .err e => (w, s, some (some e))
  | .packet packet =>
    if !s.registered then
      let s1 : Session := { s with userID := packet.UserId, deviceType := packet.Source }
      if s1.userID = "" then
        (w, s1, none)
      else
        match w.relay.RegisterDevice s1.userID s1.deviceType stream with
        | (rm1, some e) => ({ w with relay := rm1 }, s1, some (some e))
        | (rm1, none) =>
          let s2 : Session := { s1 with registered := true }
          let pairingInfo := rm1.GetPairingInfo s1.userID
          let cp := controlPacket inp.uuid s1.userID s1.deviceType pairingInfo
          match tr w.sent stream cp with
          | some e =>
            ({ w with relay := rm1, sent := w.sent ++ [⟨stream, cp, some e⟩] }, s2,
              some (some e))
          | none =>
            ({ w with relay := rm1, sent := w.sent ++ [⟨stream, cp, none⟩] }, s2, none)
    else
      match RoutePacket tr w packet with
      | (w1, none) => (w1, s, none)
      | (w1, some e) =>
        let ep := errorPacket inp.uuid s.userID s.deviceType e
        match tr w1.sent stream ep with
        | some e2 => ({ w1 with sent := w1.sent ++ [⟨stream, ep, some e2⟩] }, s, some (some e2))
        | none => ({ w1 with sent := w1.sent ++ [⟨stream, ep, none⟩] }, s, none)

/-- The `for` loop of `Service.Stream` over the inputs that have arrived. A
third component `none` means the loop is waiting in `Recv`. -/
def streamLoop (tr : Transport) (stream : StreamServer) :
    World → Session → List StreamInput → World × Session × Option GoError
  | w, s, [] => (w, s, none)
  | w, s, inp :: rest =>
    match streamIter tr stream w s inp with
    | (w1, s1, none) => streamLoop tr stream w1 s1 rest
    | (w1, s1, some r) => (w1, s1, some r)

/-- The deferred function of `Service.Stream`. -/
def streamDefer (w : World) (s : Session) : World :=
  if s.registered then
    { w with
      relay := w.relay.UnregisterDevice s.userID s.deviceType
      unregisterCalls := w.unregisterCalls ++ [(s.userID, s.deviceType)] }
  else
    w

/-- `Service.Stream` of service.go on the inputs that have arrived: the loop,
and the deferred function once the loop has returned. -/
def Service.Stream (tr : Transport) (stream : StreamServer) (w : World)
    (inputs : List StreamInput) : World × Option GoError :=
  match streamLoop tr stream w Session.start inputs with
  | (w1, s1, some r) => (streamDefer w1 s1, some r)
  | (w1, _, none) => (w1, none)

end streaming

/-! ## Concrete states used to instantiate the theorems -/

namespace relay

open pb

/-- A transport on which every `Send` on the stream `bad` fails and every
other `Send` succeeds. -/
def failingOn (bad : StreamServer) : Transport :=
  fun _ s _ => if s = bad then some "transport is closing" else none

/-- A transport on which every `Send` succeeds. -/
def reliable : Transport := fun _ _ _ => none

/-- The registry of scenario A: user "u1" with DESKTOP on stream 1. -/
def desktopOnly : World :=
  { relay := (NewRelayManager.RegisterDevice "u1" DeviceType.DESKTOP 1).1
    sent := []
    unregisterCalls := [] }

/-- The registry of scenario B: user "u1" with DESKTOP on stream 1 and MOBILE
on stream 2. -/
def bothPaired : World :=
  { relay := (desktopOnly.relay.RegisterDevice "u1" DeviceType.MOBILE 2).1
    sent := []
    unregisterCalls := [] }

/-- A data packet of user "u1" from MOBILE to `dest`. -/
def dataPacket (dest : pb.DeviceType) : Packet :=
  { PacketId := "p1"
    UserId := "u1"
    Source := DeviceType.MOBILE
    Destination := dest
    Type_ := PacketType.DATA
    Payload := Payload.Data [1, 2] }

/-- The registry of scenario D after the desktop has gone: user "u1" with
MOBILE on stream 2. -/
def mobileOnly : World :=
  { relay := (NewRelayManager.RegisterDevice "u1" DeviceType.MOBILE 2).1
    sent := []
    unregisterCalls := [] }

/-- A first packet of user "u1" announcing the role `src`. -/
def helloPacket (src : pb.DeviceType) : Packet :=
  { PacketId := "p0"
    UserId := "u1"
    Source := src
    Destination := DeviceType.UNKNOWN_DEVICE
    Type_ := PacketType.DATA
    Payload := Payload.Data [] }

/-- A registry in which only user "u2" has a device: DESKTOP on stream 3. -/
def desktopOfU2 : World :=
  { relay := (NewRelayManager.RegisterDevice "u2" DeviceType.DESKTOP 3).1
    sent := []
    unregisterCalls := [] }

/-- A data packet naming user "u2" and the destination DESKTOP. -/
def packetForU2 : Packet :=
  { PacketId := "p9"
    UserId := "u2"
    Source := DeviceType.MOBILE
    Destination := DeviceType.DESKTOP
    Type_ := PacketType.DATA
    Payload := Payload.Data [9] }

/-- The iteration order DESKTOP, MOBILE, UNKNOWN_DEVICE. -/
def desktopFirst : MapOrder :=
  { keys := [DeviceType.DESKTOP, DeviceType.MOBILE, DeviceType.UNKNOWN_DEVICE]
    nodup := by decide
    complete := by intro d; cases d <;> simp }

end relay

namespace streaming

open pb relay

/-- Session A: the desktop of "u1" joins on stream 1 on the empty registry. -/
def joinA : World × Session × Option GoError :=
  streamIter reliable 1 initWorld Session.start
    { recv := RecvResult.packet (helloPacket DeviceType.DESKTOP), uuid := "ack-a" }

/-- Session B: a second desktop of "u1" joins on stream 2 after session A. -/
def joinB : World × Session × Option GoError :=
  streamIter reliable 2 joinA.1 Session.start
    { recv := RecvResult.packet (helloPacket DeviceType.DESKTOP), uuid := "ack-b" }

/-- Session A reaches the end of its input after session B has joined. -/
def endA : World × Session × Option GoError :=
  streamLoop reliable 1 joinB.1 joinA.2.1 [{ recv := RecvResult.EOF, uuid := "unused" }]

end streaming

/-! ## Registry -/

namespace relay

open pb

/-- `RegisterDevice` never returns an error. -/
theorem RegisterDevice_err (rm : RelayManager) (u : String) (r : pb.DeviceType)
    (h : StreamServer) : (rm.RegisterDevice u r h).2 = none := rfl

/-- Lookup after `RegisterDevice`: the new entry at the registered key, the old
content everywhere else. -/
theorem lookup_RegisterDevice (rm : RelayManager) (u : String) (r : pb.DeviceType)
    (h : StreamServer) (u2 : String) (r2 : pb.DeviceType) :
    (rm.RegisterDevice u r h).1.lookup u2 r2 =
      if u2 = u ∧ r2 = r then some { UserID := u, DeviceType := r, Stream := h }
      else rm.lookup u2 r2 := by
  unfold RelayManager.RegisterDevice RelayManager.lookup
  by_cases hu : u2 = u
  · subst hu
    by_cases hr : r2 = r
    · subst hr
      simp
    · cases hc : rm.connections u2 <;> simp [hc, hr, Function.update_noteq, emptyDeviceMap]
  · simp [hu, Function.update_noteq]
    cases hc : rm.connections u <;> simp [hu, Function.update_noteq]

/-- C1: for every registry state, user `u`, role `r` and handles `h1`, `h2`,
`RegisterDevice(u, r, h1)` followed by `RegisterDevice(u, r, h2)` leaves `h2`
stored for `(u, r)` (last write wins), and both calls return no error. -/
theorem register_twice_last_write_wins (rm : RelayManager) (u : String)
    (r : pb.DeviceType) (h1 h2 : StreamServer) :
    (rm.RegisterDevice u r h1).2 = none ∧
    ((rm.RegisterDevice u r h1).1.RegisterDevice u r h2).2 = none ∧
    ((rm.RegisterDevice u r h1).1.RegisterDevice u r h2).1.lookup u r
      = some { UserID := u, DeviceType := r, Stream := h2 } := by
  refine ⟨rfl, rfl, ?_⟩
  rw [lookup_RegisterDevice]
  simp

/-- An inner map has length zero exactly when it has no entry. -/
theorem mapLen_eq_zero (m : DeviceMap) : mapLen m = 0 ↔ ∀ d, m d = none := by
  unfold mapLen DeviceType.all
  constructor
  · intro h d
    rw [List.length_eq_zero, List.filter_eq_nil_iff] at h
    have := h d (by cases d <;> simp)
    simpa using this
  · intro h
    simp [h]

/-- Lookup after `UnregisterDevice`: absent at the removed key, the old content
everywhere else. -/
theorem lookup_UnregisterDevice (rm : RelayManager) (u : String) (r : pb.DeviceType)
    (u2 : String) (r2 : pb.DeviceType) :
    (rm.UnregisterDevice u r).lookup u2 r2 =
      if u2 = u ∧ r2 = r then none else rm.lookup u2 r2 := by
  unfold RelayManager.UnregisterDevice
  cases hc : rm.connections u with
  | none =>
    by_cases hu : u2 = u
    · subst hu; simp [RelayManager.lookup, hc]
    · simp [hu]
  | some m =>
    by_cases hu : u2 = u
    · subst hu
      by_cases hlen : mapLen (Function.update m r none) = 0
      · have hall := (mapLen_eq_zero _).1 hlen
        have h2 := hall r2
        by_cases hr : r2 = r
        · subst hr; simp [RelayManager.lookup, hlen]
        · rw [Function.update_noteq hr] at h2
          simp [RelayManager.lookup, hlen, hc, h2, hr]
      · by_cases hr : r2 = r
        · subst hr; simp [RelayManager.lookup, hlen]
        · simp [RelayManager.lookup, hlen, hc, hr, Function.update_noteq]
    · by_cases hlen : mapLen (Function.update m r none) = 0 <;>
        simp [RelayManager.lookup, hlen, hu, Function.update_noteq]

/-- C2: in a registry state where user `u` has exactly one registered role `r`,
`UnregisterDevice(u, r)` removes `u` from the outer mapping, so afterwards the
lookup of `(u, r2)` is absent for every role `r2`. -/
theorem unregister_last_role_removes_user (rm : RelayManager) (u : String)
    (r : pb.DeviceType)
    (hone : ∀ r2, (rm.lookup u r2).isSome = true ↔ r2 = r) :
    (rm.UnregisterDevice u r).connections u = none ∧
    ∀ r2, (rm.UnregisterDevice u r).lookup u r2 = none := by
  have hr : (rm.lookup u r).isSome = true := (hone r).2 rfl
  cases hc : rm.connections u with
  | none => simp [RelayManager.lookup, hc] at hr
  | some m =>
    have hlen : mapLen (Function.update m r none) = 0 := by
      rw [mapLen_eq_zero]
      intro d
      by_cases hd : d = r
      · subst hd; simp
      · rw [Function.update_noteq hd]
        have := (hone d).not.2 hd
        simpa [RelayManager.lookup, hc] using this
    have hconn : (rm.UnregisterDevice u r).connections u = none := by
      simp [RelayManager.UnregisterDevice, hc, hlen]
    refine ⟨hconn, ?_⟩
    intro r2
    simp [RelayManager.lookup, hconn]

/-- Witness for C2: user "u1" with only DESKTOP registered. -/
theorem unregister_last_role_removes_user_witness :
    (∀ r2, (((NewRelayManager.RegisterDevice "u1" DeviceType.DESKTOP 1).1).lookup "u1" r2).isSome
        = true ↔ r2 = DeviceType.DESKTOP) ∧
    (((NewRelayManager.RegisterDevice "u1" DeviceType.DESKTOP 1).1.UnregisterDevice "u1"
        DeviceType.DESKTOP).connections "u1" = none ∧
      ∀ r2, ((NewRelayManager.RegisterDevice "u1" DeviceType.DESKTOP 1).1.UnregisterDevice "u1"
        DeviceType.DESKTOP).lookup "u1" r2 = none) :=
  have h : ∀ r2, (((NewRelayManager.RegisterDevice "u1" DeviceType.DESKTOP 1).1).lookup "u1" r2).isSome
        = true ↔ r2 = DeviceType.DESKTOP := by
    intro r2
    rw [lookup_RegisterDevice]
    cases r2 <;> simp [RelayManager.lookup, NewRelayManager]
  ⟨h, unregister_last_role_removes_user _ "u1" DeviceType.DESKTOP h⟩

/-- `RoutePacket` does not write to the registry. -/
theorem RoutePacket_relay (tr : Transport) (w : World) (p : Packet) :
    (RoutePacket tr w p).1.relay = w.relay := by
  unfold RoutePacket
  split
  · rfl
  · split
    · rfl
    · split <;> rfl

/-- `BroadcastToUser` does not write to the registry. -/
theorem BroadcastToUser_relay (tr : Transport) (ord : MapOrder) (w : World) (u : String)
    (p : Packet) : (BroadcastToUser tr ord w u p).1.relay = w.relay := by
  unfold BroadcastToUser
  cases w.relay.connections u <;> rfl

/-- `RegisterDevice` keeps every user of the outer map non-empty. -/
theorem NoEmptyUser_RegisterDevice (rm : RelayManager) (u : String) (r : pb.DeviceType)
    (h : StreamServer) (hinv : NoEmptyUser rm) : NoEmptyUser (rm.RegisterDevice u r h).1 := by
  intro u2 m2 hm2
  by_cases hu : u2 = u
  · subst hu
    refine ⟨r, { UserID := u2, DeviceType := r, Stream := h }, ?_⟩
    simp [RelayManager.RegisterDevice] at hm2
    rw [← hm2]
    simp
  · apply hinv u2 m2
    unfold RelayManager.RegisterDevice at hm2
    cases hc : rm.connections u <;> simpa [hc, hu, Function.update_noteq] using hm2

/-- `UnregisterDevice` keeps every user of the outer map non-empty. -/
theorem NoEmptyUser_UnregisterDevice (rm : RelayManager) (u : String) (r : pb.DeviceType)
    (hinv : NoEmptyUser rm) : NoEmptyUser (rm.UnregisterDevice u r) := by
  intro u2 m2 hm2
  unfold RelayManager.UnregisterDevice at hm2
  cases hc : rm.connections u with
  | none =>
    rw [hc] at hm2
    exact hinv u2 m2 hm2
  | some m =>
    rw [hc] at hm2
    by_cases hlen : mapLen (Function.update m r none) = 0
    · by_cases hu : u2 = u
      · subst hu; simp [hlen] at hm2
      · apply hinv u2 m2
        simpa [hlen, hu, Function.update_noteq] using hm2
    · by_cases hu : u2 = u
      · subst hu
        simp [hlen] at hm2
        subst hm2
        rw [mapLen_eq_zero] at hlen
        push_neg at hlen
        obtain ⟨d, hd⟩ := hlen
        cases hs : Function.update m r none d with
        | none => exact absurd hs hd
        | some s => exact ⟨d, s, hs⟩
      · apply hinv u2 m2
        simpa [hlen, hu, Function.update_noteq] using hm2

/-- Every call keeps every user of the outer map non-empty. -/
theorem NoEmptyUser_run (tr : Transport) (w : World) (c : Call)
    (hinv : NoEmptyUser w.relay) : NoEmptyUser (c.run tr w).relay := by
  cases c with
  | RegisterDevice u r h => exact NoEmptyUser_RegisterDevice _ u r h hinv
  | UnregisterDevice u r => exact NoEmptyUser_UnregisterDevice _ u r hinv
  | RoutePacket p =>
    show NoEmptyUser (RoutePacket tr w p).1.relay
    rw [RoutePacket_relay]; exact hinv
  | BroadcastToUser ord u p =>
    show NoEmptyUser (BroadcastToUser tr ord w u p).1.relay
    rw [BroadcastToUser_relay]; exact hinv
  | GetPairingInfo u => exact hinv

/-- A sequence of calls keeps every user of the outer map non-empty. -/
theorem NoEmptyUser_runCalls (tr : Transport) (calls : List Call) :
    ∀ w : World, NoEmptyUser w.relay → NoEmptyUser (runCalls tr w calls).relay := by
  induction calls with
  | nil => intro w h; exact h
  | cons c rest ih =>
    intro w h
    exact ih (c.run tr w) (NoEmptyUser_run tr w c h)

/-- C3: in every registry state reached from `NewRelayManager()` by a sequence
of `RegisterDevice`, `UnregisterDevice`, `RoutePacket`, `BroadcastToUser` and
`GetPairingInfo` calls, whatever the sends return, no user identifier of the
outer mapping maps to an empty role mapping. -/
theorem reachable_no_empty_user (tr : Transport) (calls : List Call) :
    ∀ userID userConns,
      (runCalls tr initWorld calls).relay.connections userID = some userConns →
      mapLen userConns ≠ 0 ∧ ∃ d s, userConns d = some s := by
  intro u m hm
  have h := NoEmptyUser_runCalls tr calls initWorld
    (by intro u2 m2 h2; simp [initWorld, NewRelayManager] at h2) u m hm
  refine ⟨?_, h⟩
  obtain ⟨d, s, hd⟩ := h
  intro hlen
  rw [mapLen_eq_zero] at hlen
  rw [hlen d] at hd
  exact Option.noConfusion hd

/-- A reached state in which the statement of C3 is not vacuous: user "u1" is
in the outer map after a registration, an unregistration of another role and a
pairing query. -/
theorem reachable_no_empty_user_witness :
    ∃ userConns,
      (runCalls (fun _ _ _ => none) initWorld
        [Call.RegisterDevice "u1" DeviceType.DESKTOP 1,
         Call.UnregisterDevice "u1" DeviceType.MOBILE,
         Call.GetPairingInfo "u1"]).relay.connections "u1" = some userConns ∧
      mapLen userConns ≠ 0 :=
  match h : (runCalls (fun _ _ _ => none) initWorld
        [Call.RegisterDevice "u1" DeviceType.DESKTOP 1,
         Call.UnregisterDevice "u1" DeviceType.MOBILE,
         Call.GetPairingInfo "u1"]).relay.connections "u1" with
  | some m => ⟨m, rfl, (reachable_no_empty_user _ _ "u1" m h).1⟩
  | none => by
    simp [runCalls, Call.run, initWorld, NewRelayManager, RelayManager.RegisterDevice,
      RelayManager.UnregisterDevice, mapLen, DeviceType.all, emptyDeviceMap,
      Function.update] at h

/-! ## Pairing info and routing -/

/-- C4: for every registry state and user `u`, `GetPairingInfo(u)` has
`DesktopOnline = true` exactly when a handle is registered for `(u, DESKTOP)`
and `MobileOnline = true` exactly when one is registered for `(u, MOBILE)`; so
no role gives `{false,false}`, only DESKTOP `{true,false}`, only MOBILE
`{false,true}` and both `{true,true}`. -/
theorem pairing_info_flags (rm : RelayManager) (u : String) :
    ((rm.GetPairingInfo u).DesktopOnline = true ↔
        ∃ s, rm.lookup u DeviceType.DESKTOP = some s) ∧
    ((rm.GetPairingInfo u).MobileOnline = true ↔
        ∃ s, rm.lookup u DeviceType.MOBILE = some s) ∧
    rm.GetPairingInfo u =
      { DesktopOnline := (rm.lookup u DeviceType.DESKTOP).isSome
        MobileOnline := (rm.lookup u DeviceType.MOBILE).isSome } := by
  unfold RelayManager.GetPairingInfo RelayManager.lookup
  cases hc : rm.connections u with
  | none => simp
  | some m =>
    cases hd : m DeviceType.DESKTOP <;> cases hm : m DeviceType.MOBILE <;> simp [hd, hm]

/-- C5: for every registry state and packet `p` with no handle registered for
`(p.user, p.destination)`, `RoutePacket(p)` returns a no-connection error (the
user has no connections, or the destination device is not connected), calls
`Send` on no stream and leaves the registry unchanged. -/
theorem route_unregistered_no_connection (tr : Transport) (w : World) (p : Packet)
    (h : w.relay.lookup p.UserId p.Destination = none) :
    (RoutePacket tr w p).2 =
      some (if (w.relay.connections p.UserId).isNone then
          "no connections for user " ++ p.UserId
        else
          "destination device " ++ p.Destination.name ++ " not connected for user "
            ++ p.UserId) ∧
    (RoutePacket tr w p).1.sent = w.sent ∧
    (RoutePacket tr w p).1.relay = w.relay ∧
    (RoutePacket tr w p).1 = w := by
  unfold RelayManager.lookup at h
  unfold RoutePacket
  cases hc : w.relay.connections p.UserId with
  | none => simp
  | some m =>
    rw [hc] at h
    simp only at h
    simp [h]

/-- Witness for C5: user "u1" has DESKTOP registered and the packet goes to
MOBILE. -/
theorem route_unregistered_no_connection_witness :
    (RoutePacket (fun _ _ _ => none)
      { relay := (NewRelayManager.RegisterDevice "u1" DeviceType.DESKTOP 1).1
        sent := [], unregisterCalls := [] }
      { PacketId := "p1", UserId := "u1", Source := DeviceType.DESKTOP
        Destination := DeviceType.MOBILE, Type_ := PacketType.DATA
        Payload := Payload.Data [1, 2] }).2
      = some "destination device MOBILE not connected for user u1" ∧
    (RoutePacket (fun _ _ _ => none)
      { relay := (NewRelayManager.RegisterDevice "u1" DeviceType.DESKTOP 1).1
        sent := [], unregisterCalls := [] }
      { PacketId := "p1", UserId := "u1", Source := DeviceType.DESKTOP
        Destination := DeviceType.MOBILE, Type_ := PacketType.DATA
        Payload := Payload.Data [1, 2] }).1.sent = [] := by
  have h := route_unregistered_no_connection (fun _ _ _ => none)
      { relay := (NewRelayManager.RegisterDevice "u1" DeviceType.DESKTOP 1).1
        sent := [], unregisterCalls := [] }
      { PacketId := "p1", UserId := "u1", Source := DeviceType.DESKTOP
        Destination := DeviceType.MOBILE, Type_ := PacketType.DATA
        Payload := Payload.Data [1, 2] }
      (by rw [lookup_RegisterDevice]; simp [RelayManager.lookup, NewRelayManager])
  refine ⟨?_, h.2.1⟩
  rw [h.1]
  simp [RelayManager.RegisterDevice, NewRelayManager, DeviceType.name]

/-- C6: for every registry state and packet `p` with a handle registered for
`(p.user, p.destination)`, `RoutePacket(p)` makes exactly one `Send`, of `p`
itself, on that handle and on no other, returns what that `Send` returned, and
leaves the registry unchanged. -/
theorem route_registered_forwards (tr : Transport) (w : World) (p : Packet)
    (ds : DeviceStream) (h : w.relay.lookup p.UserId p.Destination = some ds) :
    (RoutePacket tr w p).1.sent
      = w.sent ++ [{ stream := ds.Stream, packet := p, err := tr w.sent ds.Stream p }] ∧
    (RoutePacket tr w p).2 = tr w.sent ds.Stream p ∧
    ((RoutePacket tr w p).2 = none ↔ tr w.sent ds.Stream p = none) ∧
    (RoutePacket tr w p).1.relay = w.relay ∧
    (RoutePacket tr w p).1.unregisterCalls = w.unregisterCalls := by
  unfold RelayManager.lookup at h
  unfold RoutePacket
  cases hc : w.relay.connections p.UserId with
  | none => rw [hc] at h; simp at h
  | some m =>
    rw [hc] at h
    simp only at h
    simp only [h]
    cases ht : tr w.sent ds.Stream p <;> simp

/-- Witness for C6: scenario C, MOBILE sends to the registered DESKTOP. -/
theorem route_registered_forwards_witness :
    (RoutePacket (fun _ _ _ => none)
      { relay := (NewRelayManager.RegisterDevice "u1" DeviceType.DESKTOP 1).1
        sent := [], unregisterCalls := [] }
      { PacketId := "p1", UserId := "u1", Source := DeviceType.MOBILE
        Destination := DeviceType.DESKTOP, Type_ := PacketType.DATA
        Payload := Payload.Data [1, 2] }).1.sent
      = [{ stream := 1
           packet := { PacketId := "p1", UserId := "u1", Source := DeviceType.MOBILE
                       Destination := DeviceType.DESKTOP, Type_ := PacketType.DATA
                       Payload := Payload.Data [1, 2] }
           err := none }] :=
  (route_registered_forwards (fun _ _ _ => none)
      { relay := (NewRelayManager.RegisterDevice "u1" DeviceType.DESKTOP 1).1
        sent := [], unregisterCalls := [] }
      { PacketId := "p1", UserId := "u1", Source := DeviceType.MOBILE
        Destination := DeviceType.DESKTOP, Type_ := PacketType.DATA
        Payload := Payload.Data [1, 2] }
      { UserID := "u1", DeviceType := DeviceType.DESKTOP, Stream := 1 }
      (by rw [lookup_RegisterDevice]; simp)).1

/-! ## Broadcast -/

/-- One round of the loop of `BroadcastToUser`: the `Send` is recorded with its
result, and `lastErr` is overwritten only by a failure. -/
theorem broadcastLoop_cons (tr : Transport) (p : Packet) (d : pb.DeviceType)
    (s : DeviceStream) (rest : List (pb.DeviceType × DeviceStream))
    (sent : List SendEvent) (lastErr : GoError) :
    broadcastLoop tr p ((d, s) :: rest) sent lastErr =
      broadcastLoop tr p rest
        (sent ++ [{ stream := s.Stream, packet := p, err := tr sent s.Stream p }])
        (match tr sent s.Stream p with
          | some e => some e
          | none => lastErr) := by
  cases h : tr sent s.Stream p <;> simp [broadcastLoop, h]

/-- What the loop of `BroadcastToUser` does over the entries of the inner map
`m` visited in the order `keys`: one `Send` of `p` per entry, each with the
result the transport gives at that point, and the last failure as result. -/
theorem broadcastLoop_spec (tr : Transport) (p : Packet) (m : DeviceMap)
    (keys : List pb.DeviceType) :
    ∀ (sent : List SendEvent) (lastErr : GoError), ∃ evs : List SendEvent,
      (broadcastLoop tr p (keys.filterMap (fun d => (m d).map (fun s => (d, s))))
          sent lastErr).1 = sent ++ evs ∧
      List.Forall₂ (fun r e => ∃ ds, m r = some ds ∧ e.stream = ds.Stream ∧ e.packet = p)
        (keys.filter (fun r => (m r).isSome)) evs ∧
      (∀ pre e post, evs = pre ++ e :: post → e.err = tr (sent ++ pre) e.stream p) ∧
      (broadcastLoop tr p (keys.filterMap (fun d => (m d).map (fun s => (d, s))))
          sent lastErr).2 =
        (match (evs.filterMap (fun e => e.err)).getLast? with
          | some x => some x
          | none => lastErr) := by
  induction keys with
  | nil =>
    intro sent lastErr
    refine ⟨[], by simp [broadcastLoop], by simp, ?_, by simp [broadcastLoop]⟩
    intro pre e post h
    simp at h
  | cons k ks ih =>
    intro sent lastErr
    cases hk : m k with
    | none =>
      obtain ⟨evs, h1, h2, h3, h4⟩ := ih sent lastErr
      refine ⟨evs, ?_, ?_, h3, ?_⟩
      · simpa [List.filterMap_cons, hk] using h1
      · simpa [List.filter_cons, hk] using h2
      · simpa [List.filterMap_cons, hk] using h4
    | some ds =>
      obtain ⟨evs, h1, h2, h3, h4⟩ :=
        ih (sent ++ [{ stream := ds.Stream, packet := p, err := tr sent ds.Stream p }])
          (match tr sent ds.Stream p with
            | some e => some e
            | none => lastErr)
      have hfm : (k :: ks).filterMap (fun d => (m d).map (fun s => (d, s)))
          = (k, ds) :: ks.filterMap (fun d => (m d).map (fun s => (d, s))) := by
        simp [List.filterMap_cons, hk]
      rw [hfm, broadcastLoop_cons]
      refine ⟨{ stream := ds.Stream, packet := p, err := tr sent ds.Stream p } :: evs,
        ?_, ?_, ?_, ?_⟩
      · rw [h1]; simp
      · have hf : (k :: ks).filter (fun r => (m r).isSome)
            = k :: ks.filter (fun r => (m r).isSome) := by
          simp [List.filter_cons, hk]
        rw [hf]
        exact List.Forall₂.cons ⟨ds, hk, rfl, rfl⟩ h2
      · intro pre e post h
        cases pre with
        | nil =>
          simp at h
          rw [← h.1]
          simp
        | cons a pre2 =>
          simp at h
          have := h3 pre2 e post h.2
          rw [this, ← h.1]
          simp
      · rw [h4]
        cases ht : tr sent ds.Stream p with
        | none => simp
        | some x =>
          simp only [List.filterMap_cons]
          rw [List.getLast?_cons]
          cases (List.filterMap (fun e => e.err) evs).getLast? <;> simp

/-- Two lists related element by element count the same number of matches for
predicates that agree on related elements. -/
theorem countP_eq_of_forall₂ {α β : Type} (R : α → β → Prop) (P : α → Bool) (Q : β → Bool)
    (hR : ∀ a b, R a b → P a = Q b) :
    ∀ (l1 : List α) (l2 : List β), List.Forall₂ R l1 l2 → l1.countP P = l2.countP Q := by
  intro l1 l2 h
  induction h with
  | nil => rfl
  | cons hab _ ih => rw [List.countP_cons, List.countP_cons, ih, hR _ _ hab]

/-- Every iteration order is a permutation of the list of all device types. -/
theorem MapOrder.perm_all (ord : MapOrder) : List.Perm ord.keys DeviceType.all := by
  rw [List.perm_ext_iff_of_nodup ord.nodup (by decide)]
  intro a
  constructor
  · intro _; cases a <;> simp [DeviceType.all]
  · intro _; exact ord.complete a

/-- If the last recorded failure is `x`, some send failed with `x` and every
later send succeeded. -/
theorem last_failure_split (evs : List SendEvent) (x : String) :
    (evs.filterMap (fun e => e.err)).getLast? = some x →
    ∃ pre e post, evs = pre ++ e :: post ∧ e.err = some x ∧ ∀ e2 ∈ post, e2.err = none := by
  induction evs using List.reverseRecOn with
  | nil => simp
  | append_singleton init a ih =>
    intro h
    cases ha : a.err with
    | none =>
      have h2 : (init.filterMap (fun e => e.err)).getLast? = some x := by
        simpa [List.filterMap_append, ha] using h
      obtain ⟨pre, e, post, h3, h4, h5⟩ := ih h2
      refine ⟨pre, e, post ++ [a], by simp [h3], h4, ?_⟩
      intro e2 he2
      rcases List.mem_append.1 he2 with h6 | h6
      · exact h5 e2 h6
      · simp at h6; rw [h6]; exact ha
    | some y =>
      have h2 : y = x := by
        simpa [List.filterMap_append, ha] using h
      exact ⟨init, a, [], rfl, by rw [ha, h2], by simp⟩

/-- What `BroadcastToUser` does for a user present in the outer map. -/
theorem BroadcastToUser_spec (tr : Transport) (ord : MapOrder) (w : World) (u : String)
    (p : Packet) (m : DeviceMap) (hc : w.relay.connections u = some m) :
    ∃ evs : List SendEvent,
      (BroadcastToUser tr ord w u p).1.sent = w.sent ++ evs ∧
      List.Forall₂ (fun r e => ∃ ds, m r = some ds ∧ e.stream = ds.Stream ∧ e.packet = p)
        (ord.keys.filter (fun r => (m r).isSome)) evs ∧
      (∀ pre e post, evs = pre ++ e :: post → e.err = tr (w.sent ++ pre) e.stream p) ∧
      (BroadcastToUser tr ord w u p).2 = (evs.filterMap (fun e => e.err)).getLast? := by
  obtain ⟨evs, h1, h2, h3, h4⟩ := broadcastLoop_spec tr p m ord.keys w.sent none
  refine ⟨evs, ?_, h2, h3, ?_⟩
  · simp only [BroadcastToUser, hc, rangeMap]
    exact h1
  · simp only [BroadcastToUser, hc, rangeMap]
    rw [h4]
    cases (evs.filterMap (fun e => e.err)).getLast? <;> rfl

/-- C7: for every registry state, user `u` with at least one registered device
and packet `p`, `BroadcastToUser(u, p)` calls `Send` exactly once, with `p`, for
every device entry registered for `u` (the registered roles, each once, in
iteration order), every call getting the result the transport gives at that
point whatever the earlier calls returned, and leaves the registry unchanged.
The number of calls on a stream is the number of roles of `u` it is registered
under. -/
theorem broadcast_attempts_every_device (tr : Transport) (ord : MapOrder) (w : World)
    (u : String) (p : Packet) (h : ∃ r s, w.relay.lookup u r = some s) :
    (BroadcastToUser tr ord w u p).1.relay = w.relay ∧
    ∃ evs : List SendEvent,
      (BroadcastToUser tr ord w u p).1.sent = w.sent ++ evs ∧
      (ord.keys.filter (fun r => (w.relay.lookup u r).isSome)).Nodup ∧
      (∀ r, r ∈ ord.keys.filter (fun r => (w.relay.lookup u r).isSome) ↔
        ∃ s, w.relay.lookup u r = some s) ∧
      List.Forall₂
        (fun r e => ∃ ds, w.relay.lookup u r = some ds ∧ e.stream = ds.Stream ∧ e.packet = p)
        (ord.keys.filter (fun r => (w.relay.lookup u r).isSome)) evs ∧
      (∀ pre e post, evs = pre ++ e :: post → e.err = tr (w.sent ++ pre) e.stream p) ∧
      (∀ st : StreamServer, evs.countP (fun e => e.stream = st) =
        DeviceType.all.countP
          (fun r => (w.relay.lookup u r).map DeviceStream.Stream = some st)) := by
  refine ⟨BroadcastToUser_relay tr ord w u p, ?_⟩
  obtain ⟨r0, s0, h0⟩ := h
  cases hc : w.relay.connections u with
  | none => simp [RelayManager.lookup, hc] at h0
  | some m =>
    have hl : ∀ r, w.relay.lookup u r = m r := by
      intro r; simp [RelayManager.lookup, hc]
    obtain ⟨evs, h1, h2, h3, _⟩ := BroadcastToUser_spec tr ord w u p m hc
    simp only [hl]
    refine ⟨evs, h1, ord.nodup.filter _, ?_, h2, h3, ?_⟩
    · intro r
      simp [ord.complete r, Option.isSome_iff_exists]
    · intro st
      have hcount := countP_eq_of_forall₂
        (fun (r : pb.DeviceType) (e : SendEvent) =>
          ∃ ds, m r = some ds ∧ e.stream = ds.Stream ∧ e.packet = p)
        (fun r => decide ((m r).map DeviceStream.Stream = some st))
        (fun e => decide (e.stream = st))
        (by
          rintro r e ⟨ds, hm, hs, _⟩
          simp [hm, hs])
        _ _ h2
      rw [← hcount, List.countP_filter, ← ord.perm_all.countP_eq]
      apply List.countP_congr
      intro r _
      cases hm : m r <;> simp

/-- Witness for C7: both devices of "u1" are registered and every `Send` on
the desktop stream fails; the mobile stream still gets its `Send`. -/
theorem broadcast_attempts_every_device_witness :
    (∃ r s, bothPaired.relay.lookup "u1" r = some s) ∧
    (BroadcastToUser (failingOn 1) desktopFirst bothPaired "u1"
        (dataPacket DeviceType.UNKNOWN_DEVICE)).1.sent =
      [{ stream := 1, packet := dataPacket DeviceType.UNKNOWN_DEVICE
         err := some "transport is closing" },
       { stream := 2, packet := dataPacket DeviceType.UNKNOWN_DEVICE, err := none }] ∧
    (BroadcastToUser (failingOn 1) desktopFirst bothPaired "u1"
        (dataPacket DeviceType.UNKNOWN_DEVICE)).1.relay = bothPaired.relay :=
  have hreg : ∃ r s, bothPaired.relay.lookup "u1" r = some s :=
    ⟨DeviceType.MOBILE, { UserID := "u1", DeviceType := DeviceType.MOBILE, Stream := 2 }, by
      simp [bothPaired, lookup_RegisterDevice]⟩
  ⟨hreg,
    by
      simp [BroadcastToUser, bothPaired, desktopOnly, RelayManager.RegisterDevice,
        NewRelayManager, rangeMap, desktopFirst, broadcastLoop, failingOn, emptyDeviceMap,
        Function.update],
    (broadcast_attempts_every_device (failingOn 1) desktopFirst bothPaired "u1"
      (dataPacket DeviceType.UNKNOWN_DEVICE) hreg).1⟩

/-- C8: for every registry state, user `u` with at least one registered device
and packet `p`, `BroadcastToUser(u, p)` returns an error if and only if at
least one of its `Send` calls failed, and the error returned is that of the
last call that failed in iteration order: every call after it succeeded. -/
theorem broadcast_last_error_wins (tr : Transport) (ord : MapOrder) (w : World)
    (u : String) (p : Packet) (h : ∃ r s, w.relay.lookup u r = some s) :
    ∃ evs : List SendEvent,
      (BroadcastToUser tr ord w u p).1.sent = w.sent ++ evs ∧
      List.Forall₂
        (fun r e => ∃ ds, w.relay.lookup u r = some ds ∧ e.stream = ds.Stream ∧ e.packet = p)
        (ord.keys.filter (fun r => (w.relay.lookup u r).isSome)) evs ∧
      (∀ pre e post, evs = pre ++ e :: post → e.err = tr (w.sent ++ pre) e.stream p) ∧
      ((BroadcastToUser tr ord w u p).2 ≠ none ↔ ∃ e ∈ evs, e.err ≠ none) ∧
      (BroadcastToUser tr ord w u p).2 = (evs.filterMap (fun e => e.err)).getLast? ∧
      (∀ x, (BroadcastToUser tr ord w u p).2 = some x →
        ∃ pre e post, evs = pre ++ e :: post ∧ e.err = some x ∧ ∀ e2 ∈ post, e2.err = none) := by
  obtain ⟨r0, s0, h0⟩ := h
  cases hc : w.relay.connections u with
  | none => simp [RelayManager.lookup, hc] at h0
  | some m =>
    have hl : ∀ r, w.relay.lookup u r = m r := by
      intro r; simp [RelayManager.lookup, hc]
    obtain ⟨evs, h1, h2, h3, h4⟩ := BroadcastToUser_spec tr ord w u p m hc
    simp only [hl]
    refine ⟨evs, h1, h2, h3, ?_, h4, ?_⟩
    · rw [h4]
      simp [List.getLast?_eq_none_iff, List.filterMap_eq_nil_iff]
    · intro x hx
      rw [h4] at hx
      exact last_failure_split evs x hx

/-- Witness for C8: both devices of "u1" are registered and the `Send` on the
desktop stream, the first in iteration order, fails; its error is returned. -/
theorem broadcast_last_error_wins_witness :
    (∃ r s, bothPaired.relay.lookup "u1" r = some s) ∧
    (BroadcastToUser (failingOn 1) desktopFirst bothPaired "u1"
        (dataPacket DeviceType.UNKNOWN_DEVICE)).2 = some "transport is closing" ∧
    ∃ evs : List SendEvent,
      (BroadcastToUser (failingOn 1) desktopFirst bothPaired "u1"
        (dataPacket DeviceType.UNKNOWN_DEVICE)).1.sent = bothPaired.sent ++ evs ∧
      (BroadcastToUser (failingOn 1) desktopFirst bothPaired "u1"
        (dataPacket DeviceType.UNKNOWN_DEVICE)).2 = (evs.filterMap (fun e => e.err)).getLast? :=
  have hreg : ∃ r s, bothPaired.relay.lookup "u1" r = some s :=
    ⟨DeviceType.DESKTOP, { UserID := "u1", DeviceType := DeviceType.DESKTOP, Stream := 1 }, by
      simp [bothPaired, desktopOnly, lookup_RegisterDevice]⟩
  ⟨hreg,
    by
      simp [BroadcastToUser, bothPaired, desktopOnly, RelayManager.RegisterDevice,
        NewRelayManager, rangeMap, desktopFirst, broadcastLoop, failingOn, emptyDeviceMap,
        Function.update],
    match broadcast_last_error_wins (failingOn 1) desktopFirst bothPaired "u1"
      (dataPacket DeviceType.UNKNOWN_DEVICE) hreg with
    | ⟨evs, h1, _, _, _, h5, _⟩ => ⟨evs, h1, h5⟩⟩

end relay

/-! ## Stream sessions -/

namespace streaming

open pb relay

/-- `GetPairingInfo` in terms of the lookups of the two roles. -/
theorem GetPairingInfo_eq_lookup (rm : RelayManager) (u : String) :
    rm.GetPairingInfo u =
      { DesktopOnline := (rm.lookup u DeviceType.DESKTOP).isSome
        MobileOnline := (rm.lookup u DeviceType.MOBILE).isSome } := by
  unfold RelayManager.GetPairingInfo RelayManager.lookup
  cases hc : rm.connections u with
  | none => simp
  | some m =>
    cases hd : m DeviceType.DESKTOP <;> cases hm : m DeviceType.MOBILE <;> simp [hd, hm]

/-- The first packet with a user identifier: `Stream` registers, builds the
ACK from the pairing info of the new registry, sends it, and goes on exactly
when that `Send` succeeded. -/
theorem streamIter_first_packet (tr : Transport) (stream : StreamServer) (w : World)
    (s : Session) (inp : StreamInput) (p : Packet)
    (hrecv : inp.recv = RecvResult.packet p) (hs : s.registered = false)
    (hu : p.UserId ≠ "") :
    streamIter tr stream w s inp =
      ({ relay := (w.relay.RegisterDevice p.UserId p.Source stream).1
         sent := w.sent ++
           [{ stream := stream
              packet := controlPacket inp.uuid p.UserId p.Source
                ((w.relay.RegisterDevice p.UserId p.Source stream).1.GetPairingInfo p.UserId)
              err := tr w.sent stream (controlPacket inp.uuid p.UserId p.Source
                ((w.relay.RegisterDevice p.UserId p.Source stream).1.GetPairingInfo p.UserId)) }]
         unregisterCalls := w.unregisterCalls },
       { userID := p.UserId, deviceType := p.Source, registered := true },
       (tr w.sent stream (controlPacket inp.uuid p.UserId p.Source
          ((w.relay.RegisterDevice p.UserId p.Source stream).1.GetPairingInfo p.UserId))).map
          some) := by
  unfold streamIter
  simp only [hrecv, hs, hu]
  have hreg : w.relay.RegisterDevice p.UserId p.Source stream
      = ((w.relay.RegisterDevice p.UserId p.Source stream).1, none) := rfl
  rw [hreg]
  simp only [Bool.not_false, if_true, if_false]
  cases ht : tr w.sent stream (controlPacket inp.uuid p.UserId p.Source
      ((w.relay.RegisterDevice p.UserId p.Source stream).1.GetPairingInfo p.UserId)) <;> simp [ht]

/-- C9: for every registry state and every first inbound packet `p` with
non-empty user received by an unregistered session with handle `stream`, the
session registers `stream` under `(p.user, p.source)` and then makes exactly
one `Send` on `stream`, of a CONTROL/ACK packet with source UNKNOWN_DEVICE,
destination `p.source` and text the pairing message of `GetPairingInfo(p.user)`
on the registry after that registration; a DESKTOP joining with no MOBILE
registered gets "Desktop online, waiting for mobile" and a MOBILE joining while
DESKTOP is registered gets "Both devices paired". -/
theorem first_packet_registers_then_acks (tr : Transport) (stream : StreamServer)
    (w : World) (s : Session) (inp : StreamInput) (p : Packet)
    (hrecv : inp.recv = RecvResult.packet p) (hs : s.registered = false)
    (hu : p.UserId ≠ "") :
    (streamIter tr stream w s inp).1.relay
      = (w.relay.RegisterDevice p.UserId p.Source stream).1 ∧
    (streamIter tr stream w s inp).1.relay.lookup p.UserId p.Source
      = some { UserID := p.UserId, DeviceType := p.Source, Stream := stream } ∧
    (streamIter tr stream w s inp).2.1
      = { userID := p.UserId, deviceType := p.Source, registered := true } ∧
    (∃ err : GoError,
      (streamIter tr stream w s inp).1.sent = w.sent ++
        [{ stream := stream
           packet :=
            { PacketId := inp.uuid
              UserId := p.UserId
              Source := DeviceType.UNKNOWN_DEVICE
              Destination := p.Source
              Type_ := PacketType.CONTROL
              Payload := Payload.Control
                { ControlType := ControlType.ACK
                  Message := formatPairingMessage
                    ((streamIter tr stream w s inp).1.relay.GetPairingInfo p.UserId) } }
           err := err }]) ∧
    (p.Source = DeviceType.DESKTOP → w.relay.lookup p.UserId DeviceType.MOBILE = none →
      formatPairingMessage ((streamIter tr stream w s inp).1.relay.GetPairingInfo p.UserId)
        = "Desktop online, waiting for mobile") ∧
    (p.Source = DeviceType.MOBILE → (∃ ds, w.relay.lookup p.UserId DeviceType.DESKTOP = some ds) →
      formatPairingMessage ((streamIter tr stream w s inp).1.relay.GetPairingInfo p.UserId)
        = "Both devices paired") := by
  rw [streamIter_first_packet tr stream w s inp p hrecv hs hu]
  refine ⟨rfl, ?_, rfl, ⟨_, rfl⟩, ?_, ?_⟩
  · simp [lookup_RegisterDevice]
  · intro hsrc hmob
    simp [GetPairingInfo_eq_lookup, lookup_RegisterDevice, hsrc, hmob, formatPairingMessage]
  · rintro hsrc ⟨ds, hdesk⟩
    simp [GetPairingInfo_eq_lookup, lookup_RegisterDevice, hsrc, hdesk, formatPairingMessage]

/-- Scenario B evaluated: the mobile of "u1" joins on stream 2 while the
desktop is registered on stream 1; the only `Send` is the ACK on stream 2. -/
theorem scenario_B_sent :
    (streamIter reliable 2 desktopOnly Session.start
        { recv := RecvResult.packet (dataPacket DeviceType.DESKTOP), uuid := "ack-2" }).1.sent
      = [{ stream := 2
           packet :=
            { PacketId := "ack-2"
              UserId := "u1"
              Source := DeviceType.UNKNOWN_DEVICE
              Destination := DeviceType.MOBILE
              Type_ := PacketType.CONTROL
              Payload := Payload.Control
                { ControlType := ControlType.ACK, Message := "Both devices paired" } }
           err := none }] := by
  rw [streamIter_first_packet reliable 2 desktopOnly Session.start _
    (dataPacket DeviceType.DESKTOP) rfl rfl (by decide)]
  simp [GetPairingInfo_eq_lookup, lookup_RegisterDevice, desktopOnly, dataPacket, reliable,
    controlPacket, formatPairingMessage]

/-- Witness for C9: scenario B, the mobile of "u1" joins on stream 2 while the
desktop is registered, and is sent "Both devices paired". -/
theorem first_packet_registers_then_acks_witness :
    (streamIter reliable 2 desktopOnly Session.start
        { recv := RecvResult.packet (dataPacket DeviceType.DESKTOP), uuid := "ack-2" }).1.relay.lookup
        "u1" DeviceType.MOBILE
      = some { UserID := "u1", DeviceType := DeviceType.MOBILE, Stream := 2 } ∧
    formatPairingMessage
      ((streamIter reliable 2 desktopOnly Session.start
        { recv := RecvResult.packet (dataPacket DeviceType.DESKTOP), uuid := "ack-2" }).1.relay.GetPairingInfo
        "u1") = "Both devices paired" :=
  have h := first_packet_registers_then_acks reliable 2 desktopOnly Session.start
    { recv := RecvResult.packet (dataPacket DeviceType.DESKTOP), uuid := "ack-2" }
    (dataPacket DeviceType.DESKTOP) rfl rfl (by decide)
  ⟨h.2.1, h.2.2.2.2.2 rfl
    ⟨{ UserID := "u1", DeviceType := DeviceType.DESKTOP, Stream := 1 }, by
      simp [desktopOnly, dataPacket, lookup_RegisterDevice]⟩⟩

/-- Counterexample to C10: on the empty registry a first packet of user "u1"
whose source is UNKNOWN_DEVICE registers the session, and the ACK sent to it
reads "No devices online". -/
theorem ack_no_devices_online_reached :
    (streamIter reliable 1 initWorld Session.start
        { recv := RecvResult.packet
            { PacketId := "p0", UserId := "u1", Source := DeviceType.UNKNOWN_DEVICE
              Destination := DeviceType.DESKTOP, Type_ := PacketType.DATA
              Payload := Payload.Data [] }
          uuid := "ack-1" })
      = ({ relay := (NewRelayManager.RegisterDevice "u1" DeviceType.UNKNOWN_DEVICE 1).1
           sent :=
            [{ stream := 1
               packet :=
                { PacketId := "ack-1"
                  UserId := "u1"
                  Source := DeviceType.UNKNOWN_DEVICE
                  Destination := DeviceType.UNKNOWN_DEVICE
                  Type_ := PacketType.CONTROL
                  Payload := Payload.Control
                    { ControlType := ControlType.ACK, Message := "No devices online" } }
               err := none }]
           unregisterCalls := [] },
         { userID := "u1", deviceType := DeviceType.UNKNOWN_DEVICE, registered := true },
         none) := by
  rw [streamIter_first_packet reliable 1 initWorld Session.start _
    { PacketId := "p0", UserId := "u1", Source := DeviceType.UNKNOWN_DEVICE
      Destination := DeviceType.DESKTOP, Type_ := PacketType.DATA
      Payload := Payload.Data [] } rfl rfl (by decide)]
  simp only [GetPairingInfo_eq_lookup, lookup_RegisterDevice]
  simp [initWorld, reliable, controlPacket, formatPairingMessage, RelayManager.lookup,
    NewRelayManager]

/-- C10, amended: for every registry state and every first inbound packet `p`
with non-empty user, the text of the ACK sent after the session registered is
"No devices online" exactly when `p.source` is UNKNOWN_DEVICE and neither
DESKTOP nor MOBILE is registered for the user; for a source DESKTOP or MOBILE
that text is never sent. -/
theorem ack_no_devices_iff_unknown_source (tr : Transport) (stream : StreamServer)
    (w : World) (s : Session) (inp : StreamInput) (p : Packet)
    (hrecv : inp.recv = RecvResult.packet p) (hs : s.registered = false)
    (hu : p.UserId ≠ "") :
    ∃ (text : String) (err : GoError),
      (streamIter tr stream w s inp).1.sent = w.sent ++
        [{ stream := stream
           packet :=
            { PacketId := inp.uuid
              UserId := p.UserId
              Source := DeviceType.UNKNOWN_DEVICE
              Destination := p.Source
              Type_ := PacketType.CONTROL
              Payload := Payload.Control
                { ControlType := ControlType.ACK, Message := text } }
           err := err }] ∧
      (text = "No devices online" ↔
        p.Source = DeviceType.UNKNOWN_DEVICE ∧
        w.relay.lookup p.UserId DeviceType.DESKTOP = none ∧
        w.relay.lookup p.UserId DeviceType.MOBILE = none) ∧
      (p.Source = DeviceType.DESKTOP ∨ p.Source = DeviceType.MOBILE →
        text ≠ "No devices online") := by
  rw [streamIter_first_packet tr stream w s inp p hrecv hs hu]
  refine ⟨_, _, rfl, ?_⟩
  have key : formatPairingMessage
        ((w.relay.RegisterDevice p.UserId p.Source stream).1.GetPairingInfo p.UserId)
        = "No devices online" ↔
      p.Source = DeviceType.UNKNOWN_DEVICE ∧
        w.relay.lookup p.UserId DeviceType.DESKTOP = none ∧
        w.relay.lookup p.UserId DeviceType.MOBILE = none := by
    rw [GetPairingInfo_eq_lookup]
    simp only [lookup_RegisterDevice, formatPairingMessage]
    cases hsrc : p.Source <;>
      cases hd : w.relay.lookup p.UserId DeviceType.DESKTOP <;>
      cases hm : w.relay.lookup p.UserId DeviceType.MOBILE <;>
      simp
  refine ⟨key, ?_⟩
  intro hsrc htext
  have := (key.1 htext).1
  rcases hsrc with h1 | h1 <;> rw [h1] at this <;> exact absurd this (by decide)

/-- Witness for the amended C10: scenario A, the desktop of "u1" joins on the
empty registry and the text sent is not "No devices online". -/
theorem ack_no_devices_iff_unknown_source_witness :
    ∃ (text : String) (err : GoError),
      (streamIter reliable 1 initWorld Session.start
        { recv := RecvResult.packet
            { PacketId := "p0", UserId := "u1", Source := DeviceType.DESKTOP
              Destination := DeviceType.MOBILE, Type_ := PacketType.DATA
              Payload := Payload.Data [] }
          uuid := "ack-1" }).1.sent =
        [{ stream := 1
           packet :=
            { PacketId := "ack-1"
              UserId := "u1"
              Source := DeviceType.UNKNOWN_DEVICE
              Destination := DeviceType.DESKTOP
              Type_ := PacketType.CONTROL
              Payload := Payload.Control
                { ControlType := ControlType.ACK, Message := text } }
           err := err }] ∧
      text ≠ "No devices online" :=
  match ack_no_devices_iff_unknown_source reliable 1 initWorld Session.start
    { recv := RecvResult.packet
        { PacketId := "p0", UserId := "u1", Source := DeviceType.DESKTOP
          Destination := DeviceType.MOBILE, Type_ := PacketType.DATA
          Payload := Payload.Data [] }
      uuid := "ack-1" }
    { PacketId := "p0", UserId := "u1", Source := DeviceType.DESKTOP
      Destination := DeviceType.MOBILE, Type_ := PacketType.DATA
      Payload := Payload.Data [] } rfl rfl (by decide) with
  | ⟨text, err, h1, _, h3⟩ => ⟨text, err, h1, h3 (Or.inl rfl)⟩

/-- A packet without user identifier on an unregistered session: `Stream` only
overwrites its two locals and goes to the next `Recv`. -/
theorem streamIter_empty_user (tr : Transport) (stream : StreamServer) (w : World)
    (s : Session) (inp : StreamInput) (p : Packet)
    (hrecv : inp.recv = RecvResult.packet p) (hs : s.registered = false)
    (hu : p.UserId = "") :
    streamIter tr stream w s inp =
      (w, { userID := "", deviceType := p.Source, registered := false }, none) := by
  unfold streamIter
  simp [hrecv, hs, hu]

/-- A packet on a registered session: `Stream` calls `RoutePacket`, and when
that failed sends the error notice on its own stream and returns exactly when
this `Send` failed. -/
theorem streamIter_registered (tr : Transport) (stream : StreamServer) (w : World)
    (s : Session) (inp : StreamInput) (p : Packet)
    (hrecv : inp.recv = RecvResult.packet p) (hs : s.registered = true) :
    streamIter tr stream w s inp =
      (match (RoutePacket tr w p).2 with
        | none => ((RoutePacket tr w p).1, s, none)
        | some e =>
          ({ relay := (RoutePacket tr w p).1.relay
             sent := (RoutePacket tr w p).1.sent ++
               [{ stream := stream
                  packet := errorPacket inp.uuid s.userID s.deviceType e
                  err := tr (RoutePacket tr w p).1.sent stream
                    (errorPacket inp.uuid s.userID s.deviceType e) }]
             unregisterCalls := (RoutePacket tr w p).1.unregisterCalls },
           s,
           (tr (RoutePacket tr w p).1.sent stream
              (errorPacket inp.uuid s.userID s.deviceType e)).map some)) := by
  unfold streamIter
  simp only [hrecv, hs]
  generalize RoutePacket tr w p = r
  rcases r with ⟨w1, _ | e⟩
  · simp
  · simp only [Bool.not_true]
    cases ht : tr w1.sent stream (errorPacket inp.uuid s.userID s.deviceType e) <;> simp [ht]

/-- `RoutePacket` makes no `UnregisterDevice` call. -/
theorem RoutePacket_unregisterCalls (tr : Transport) (w : World) (p : Packet) :
    (RoutePacket tr w p).1.unregisterCalls = w.unregisterCalls := by
  unfold RoutePacket
  split
  · rfl
  · split
    · rfl
    · split <;> rfl

/-- C11: for every registry state, when an unregistered session receives a
packet whose user identifier is empty, the packet is discarded: the registry is
unchanged, nothing is sent on any stream, `Stream` does not return (so no error
is returned) and the session stays unregistered, so that the next packet is
handled as a first packet again and registers the session if it carries a user
identifier. -/
theorem empty_user_packet_discarded (tr : Transport) (stream : StreamServer) (w : World)
    (s : Session) (inp : StreamInput) (p : Packet)
    (hrecv : inp.recv = RecvResult.packet p) (hs : s.registered = false)
    (hu : p.UserId = "") :
    (streamIter tr stream w s inp).1 = w ∧
    (streamIter tr stream w s inp).1.relay = w.relay ∧
    (streamIter tr stream w s inp).1.sent = w.sent ∧
    (streamIter tr stream w s inp).2.2 = none ∧
    (streamIter tr stream w s inp).2.1.registered = false ∧
    (∀ rest, streamLoop tr stream w s (inp :: rest)
      = streamLoop tr stream w (streamIter tr stream w s inp).2.1 rest) ∧
    (∀ inp2 p2, inp2.recv = RecvResult.packet p2 → p2.UserId ≠ "" →
      (streamIter tr stream w (streamIter tr stream w s inp).2.1 inp2).2.1
        = { userID := p2.UserId, deviceType := p2.Source, registered := true } ∧
      (streamIter tr stream w (streamIter tr stream w s inp).2.1 inp2).1.relay
        = (w.relay.RegisterDevice p2.UserId p2.Source stream).1) := by
  have h := streamIter_empty_user tr stream w s inp p hrecv hs hu
  refine ⟨by rw [h], by rw [h], by rw [h], by rw [h], by rw [h], ?_, ?_⟩
  · intro rest
    simp [streamLoop, h]
  · intro inp2 p2 hrecv2 hu2
    rw [h]
    rw [streamIter_first_packet tr stream w _ inp2 p2 hrecv2 rfl hu2]
    exact ⟨rfl, rfl⟩

/-- Witness for C11: a packet without user identifier arrives on a fresh
session while the desktop of "u1" is registered. -/
theorem empty_user_packet_discarded_witness :
    (streamIter reliable 2 desktopOnly Session.start
        { recv := RecvResult.packet
            { PacketId := "p0", UserId := "", Source := DeviceType.MOBILE
              Destination := DeviceType.DESKTOP, Type_ := PacketType.DATA
              Payload := Payload.Data [7] }
          uuid := "id-1" }).1.sent = [] ∧
    (streamIter reliable 2 desktopOnly Session.start
        { recv := RecvResult.packet
            { PacketId := "p0", UserId := "", Source := DeviceType.MOBILE
              Destination := DeviceType.DESKTOP, Type_ := PacketType.DATA
              Payload := Payload.Data [7] }
          uuid := "id-1" }).2.2 = none :=
  have h := empty_user_packet_discarded reliable 2 desktopOnly Session.start
    { recv := RecvResult.packet
        { PacketId := "p0", UserId := "", Source := DeviceType.MOBILE
          Destination := DeviceType.DESKTOP, Type_ := PacketType.DATA
          Payload := Payload.Data [7] }
      uuid := "id-1" }
    { PacketId := "p0", UserId := "", Source := DeviceType.MOBILE
      Destination := DeviceType.DESKTOP, Type_ := PacketType.DATA
      Payload := Payload.Data [7] } rfl rfl rfl
  ⟨h.2.2.1, h.2.2.2.1⟩

/-- The three ways `RoutePacket` fails: the user has no connections, the
destination device is not connected, or the `Send` on the destination failed. -/
theorem RoutePacket_error_cases (tr : Transport) (w : World) (p : Packet) (e : String)
    (h : (RoutePacket tr w p).2 = some e) :
    (w.relay.connections p.UserId = none ∧ e = "no connections for user " ++ p.UserId) ∨
    ((∃ m, w.relay.connections p.UserId = some m) ∧
      w.relay.lookup p.UserId p.Destination = none ∧
      e = "destination device " ++ p.Destination.name ++ " not connected for user "
        ++ p.UserId) ∨
    (∃ ds, w.relay.lookup p.UserId p.Destination = some ds ∧
      tr w.sent ds.Stream p = some e) := by
  unfold RoutePacket at h
  unfold RelayManager.lookup
  cases hc : w.relay.connections p.UserId with
  | none =>
    left
    simp [hc] at h
    exact ⟨rfl, h.symm⟩
  | some m =>
    right
    cases hd : m p.Destination with
    | none =>
      left
      simp [hc, hd] at h
      exact ⟨⟨m, rfl⟩, hd, h.symm⟩
    | some ds =>
      right
      refine ⟨ds, hd, ?_⟩
      cases ht : tr w.sent ds.Stream p with
      | none => simp [hc, hd, ht] at h
      | some e2 =>
        simp [hc, hd, ht] at h
        rw [h]

/-- C12, amended: for every registered session bound to `(s.userID,
s.deviceType)` on the stream `stream` and every inbound packet `p` for which
`RoutePacket(p)` fails with error `e`, the session makes exactly one `Send` on
`stream`, of a CONTROL/ERROR packet with source UNKNOWN_DEVICE, destination the
session's role and text the description of `e`: "no connections for user ..."
when the packet's user has no registered device at all, "destination device
... not connected for user ...", naming the destination role, when that user
has a device but not the destination role, and the transport's error when the
`Send` to the destination failed. If the `Send` of the notice succeeds the
session stays registered, the registry is unchanged and the loop takes the next
packet; if it fails `Stream` returns. -/
theorem route_failure_sends_error_notice (tr : Transport) (stream : StreamServer)
    (w : World) (s : Session) (inp : StreamInput) (p : Packet) (e : String)
    (hrecv : inp.recv = RecvResult.packet p) (hs : s.registered = true)
    (hroute : (RoutePacket tr w p).2 = some e) :
    (∃ (ep : Packet) (err : GoError),
      ep = { PacketId := inp.uuid
             UserId := s.userID
             Source := DeviceType.UNKNOWN_DEVICE
             Destination := s.deviceType
             Type_ := PacketType.CONTROL
             Payload := Payload.Control
               { ControlType := ControlType.ERROR, Message := e } } ∧
      err = tr (RoutePacket tr w p).1.sent stream ep ∧
      (streamIter tr stream w s inp).1.sent
        = (RoutePacket tr w p).1.sent ++ [{ stream := stream, packet := ep, err := err }] ∧
      (err = none →
        (streamIter tr stream w s inp).2.2 = none ∧
        ∀ rest, streamLoop tr stream w s (inp :: rest)
          = streamLoop tr stream (streamIter tr stream w s inp).1 s rest) ∧
      (∀ e2, err = some e2 →
        (streamIter tr stream w s inp).2.2 = some (some e2) ∧
        ∀ rest, (streamLoop tr stream w s (inp :: rest)).2.2 = some (some e2))) ∧
    (streamIter tr stream w s inp).1.relay = w.relay ∧
    (streamIter tr stream w s inp).2.1 = s ∧
    (streamIter tr stream w s inp).2.1.registered = true ∧
    (w.relay.connections p.UserId = none → e = "no connections for user " ++ p.UserId) ∧
    ((∃ m, w.relay.connections p.UserId = some m) →
      w.relay.lookup p.UserId p.Destination = none →
      e = "destination device " ++ p.Destination.name ++ " not connected for user "
        ++ p.UserId) ∧
    (∀ ds, w.relay.lookup p.UserId p.Destination = some ds →
      tr w.sent ds.Stream p = some e) := by
  have hit := streamIter_registered tr stream w s inp p hrecv hs
  rw [hroute] at hit
  simp only at hit
  have hcases := RoutePacket_error_cases tr w p e hroute
  refine ⟨⟨_, _, rfl, rfl, ?_, ?_, ?_⟩, ?_, ?_, ?_, ?_, ?_, ?_⟩
  · rw [hit]; rfl
  · intro herr
    have herr2 : tr (RoutePacket tr w p).1.sent stream
        (errorPacket inp.uuid s.userID s.deviceType e) = none := herr
    have h3 : (streamIter tr stream w s inp).2.2 = none := by
      rw [hit]; simp [herr2]
    refine ⟨h3, ?_⟩
    intro rest
    have h2 : (streamIter tr stream w s inp).2.1 = s := by rw [hit]
    rw [streamLoop]
    rcases hres : streamIter tr stream w s inp with ⟨w1, s1, r⟩
    rw [hres] at h3 h2
    simp only at h3 h2
    subst h3
    subst h2
    rfl
  · intro e2 herr
    have herr2 : tr (RoutePacket tr w p).1.sent stream
        (errorPacket inp.uuid s.userID s.deviceType e) = some e2 := herr
    have h3 : (streamIter tr stream w s inp).2.2 = some (some e2) := by
      rw [hit]; simp [herr2]
    refine ⟨h3, ?_⟩
    intro rest
    rw [streamLoop]
    rcases hres : streamIter tr stream w s inp with ⟨w1, s1, r⟩
    rw [hres] at h3
    simp only at h3
    subst h3
    rfl
  · rw [hit]; exact RoutePacket_relay tr w p
  · rw [hit]
  · rw [hit]; exact hs
  · intro hnone
    rcases hcases with h1 | h1 | h1
    · exact h1.2
    · obtain ⟨⟨m, hm⟩, _⟩ := h1
      rw [hnone] at hm
      exact Option.noConfusion hm
    · obtain ⟨ds, hl, _⟩ := h1
      simp [RelayManager.lookup, hnone] at hl
  · rintro ⟨m, hm⟩ hl
    rcases hcases with h1 | h1 | h1
    · rw [h1.1] at hm
      exact Option.noConfusion hm
    · exact h1.2.2
    · obtain ⟨ds, hl2, _⟩ := h1
      rw [hl] at hl2
      exact Option.noConfusion hl2
  · intro ds hl
    rcases hcases with h1 | h1 | h1
    · simp [RelayManager.lookup, h1.1] at hl
    · rw [h1.2.1] at hl
      exact Option.noConfusion hl
    · obtain ⟨ds2, hl2, ht⟩ := h1
      rw [hl] at hl2
      cases hl2
      exact ht

/-- Counterexample to C12: the mobile of "u1", registered on stream 2, sends a
packet naming user "u2", who has no registered device, for DESKTOP. The
destination role is not connected, and the text of the error notice is
"no connections for user u2", which does not name it. -/
theorem error_notice_without_role_name :
    mobileOnly.relay.lookup "u2" DeviceType.DESKTOP = none ∧
    (streamIter reliable 2 mobileOnly
        { userID := "u1", deviceType := DeviceType.MOBILE, registered := true }
        { recv := RecvResult.packet packetForU2, uuid := "err-1" }).1.sent
      = [{ stream := 2
           packet :=
            { PacketId := "err-1"
              UserId := "u1"
              Source := DeviceType.UNKNOWN_DEVICE
              Destination := DeviceType.MOBILE
              Type_ := PacketType.CONTROL
              Payload := Payload.Control
                { ControlType := ControlType.ERROR
                  Message := "no connections for user u2" } }
           err := none }] ∧
    ¬ List.IsInfix (DeviceType.name DeviceType.DESKTOP).toList
        "no connections for user u2".toList := by
  refine ⟨?_, ?_, by decide⟩
  · simp only [mobileOnly, lookup_RegisterDevice]
    simp [RelayManager.lookup, NewRelayManager]
  · rw [streamIter_registered reliable 2 _ _ _ packetForU2 rfl rfl]
    simp [RoutePacket, mobileOnly, RelayManager.RegisterDevice, NewRelayManager, packetForU2,
      reliable, errorPacket, emptyDeviceMap, Function.update]

/-- Scenario D evaluated: after the desktop has gone, the mobile of "u1",
registered on stream 2, sends a packet for DESKTOP and gets the error notice. -/
theorem scenario_D_error_notice :
    (streamIter reliable 2
        { relay := (NewRelayManager.RegisterDevice "u1" DeviceType.MOBILE 2).1
          sent := [], unregisterCalls := [] }
        { userID := "u1", deviceType := DeviceType.MOBILE, registered := true }
        { recv := RecvResult.packet (dataPacket DeviceType.DESKTOP), uuid := "err-1" }).1.sent
      = [{ stream := 2
           packet :=
            { PacketId := "err-1"
              UserId := "u1"
              Source := DeviceType.UNKNOWN_DEVICE
              Destination := DeviceType.MOBILE
              Type_ := PacketType.CONTROL
              Payload := Payload.Control
                { ControlType := ControlType.ERROR
                  Message := "destination device DESKTOP not connected for user u1" } }
           err := none }] := by
  rw [streamIter_registered reliable 2 _ _ _ (dataPacket DeviceType.DESKTOP) rfl rfl]
  simp [RoutePacket, RelayManager.RegisterDevice, NewRelayManager, dataPacket, reliable,
    errorPacket, DeviceType.name, emptyDeviceMap, Function.update]

/-- Witness for C12: scenario D, the mobile of "u1" sends to the absent
desktop; the registry is unchanged and the session is still registered. -/
theorem route_failure_sends_error_notice_witness :
    (RoutePacket reliable
        { relay := (NewRelayManager.RegisterDevice "u1" DeviceType.MOBILE 2).1
          sent := [], unregisterCalls := [] }
        (dataPacket DeviceType.DESKTOP)).2
      = some "destination device DESKTOP not connected for user u1" ∧
    (streamIter reliable 2
        { relay := (NewRelayManager.RegisterDevice "u1" DeviceType.MOBILE 2).1
          sent := [], unregisterCalls := [] }
        { userID := "u1", deviceType := DeviceType.MOBILE, registered := true }
        { recv := RecvResult.packet (dataPacket DeviceType.DESKTOP), uuid := "err-1" }).1.relay
      = (NewRelayManager.RegisterDevice "u1" DeviceType.MOBILE 2).1 ∧
    (streamIter reliable 2
        { relay := (NewRelayManager.RegisterDevice "u1" DeviceType.MOBILE 2).1
          sent := [], unregisterCalls := [] }
        { userID := "u1", deviceType := DeviceType.MOBILE, registered := true }
        { recv := RecvResult.packet (dataPacket DeviceType.DESKTOP), uuid := "err-1" }).2.1.registered
      = true :=
  have hroute : (RoutePacket reliable
        { relay := (NewRelayManager.RegisterDevice "u1" DeviceType.MOBILE 2).1
          sent := [], unregisterCalls := [] }
        (dataPacket DeviceType.DESKTOP)).2
      = some "destination device DESKTOP not connected for user u1" := by
    simp [RoutePacket, RelayManager.RegisterDevice, NewRelayManager, dataPacket,
      DeviceType.name, emptyDeviceMap, Function.update]
  have h := route_failure_sends_error_notice reliable 2
    { relay := (NewRelayManager.RegisterDevice "u1" DeviceType.MOBILE 2).1
      sent := [], unregisterCalls := [] }
    { userID := "u1", deviceType := DeviceType.MOBILE, registered := true }
    { recv := RecvResult.packet (dataPacket DeviceType.DESKTOP), uuid := "err-1" }
    (dataPacket DeviceType.DESKTOP) _ rfl rfl hroute
  ⟨hroute, h.2.1, h.2.2.2.1⟩

/-! ## Whole sessions -/

/-- End of input: `Stream` returns `nil` without touching anything. -/
theorem streamIter_EOF (tr : Transport) (stream : StreamServer) (w : World)
    (s : Session) (inp : StreamInput) (hrecv : inp.recv = RecvResult.EOF) :
    streamIter tr stream w s inp = (w, s, some none) := by
  unfold streamIter
  simp [hrecv]

/-- A receive error: `Stream` returns it without touching anything. -/
theorem streamIter_err (tr : Transport) (stream : StreamServer) (w : World)
    (s : Session) (inp : StreamInput) (e : String) (hrecv : inp.recv = RecvResult.err e) :
    streamIter tr stream w s inp = (w, s, some (some e)) := by
  unfold streamIter
  simp [hrecv]

/-- No iteration of the loop calls `UnregisterDevice`. -/
theorem streamIter_unregisterCalls (tr : Transport) (stream : StreamServer) (w : World)
    (s : Session) (inp : StreamInput) :
    (streamIter tr stream w s inp).1.unregisterCalls = w.unregisterCalls := by
  cases hrecv : inp.recv with
  | EOF => rw [streamIter_EOF tr stream w s inp hrecv]
  | err e => rw [streamIter_err tr stream w s inp e hrecv]
  | packet p =>
    cases hs : s.registered with
    | true =>
      rw [streamIter_registered tr stream w s inp p hrecv hs]
      cases (RoutePacket tr w p).2 <;> exact RoutePacket_unregisterCalls tr w p
    | false =>
      by_cases hu : p.UserId = ""
      · rw [streamIter_empty_user tr stream w s inp p hrecv hs hu]
      · rw [streamIter_first_packet tr stream w s inp p hrecv hs hu]

/-- An iteration on a registered session changes neither the registry nor the
locals of `Stream`. -/
theorem streamIter_registered_keeps (tr : Transport) (stream : StreamServer) (w : World)
    (s : Session) (inp : StreamInput) (hs : s.registered = true) :
    (streamIter tr stream w s inp).1.relay = w.relay ∧
    (streamIter tr stream w s inp).2.1 = s := by
  cases hrecv : inp.recv with
  | EOF => rw [streamIter_EOF tr stream w s inp hrecv]; exact ⟨rfl, rfl⟩
  | err e => rw [streamIter_err tr stream w s inp e hrecv]; exact ⟨rfl, rfl⟩
  | packet p =>
    rw [streamIter_registered tr stream w s inp p hrecv hs]
    cases (RoutePacket tr w p).2 <;> exact ⟨RoutePacket_relay tr w p, rfl⟩

/-- An iteration on an unregistered session either leaves it unregistered and
the registry as it was, or registers the session's stream under its locals. -/
theorem streamIter_unregistered_relay (tr : Transport) (stream : StreamServer) (w : World)
    (s : Session) (inp : StreamInput) (hs : s.registered = false) :
    ((streamIter tr stream w s inp).2.1.registered = false ∧
      (streamIter tr stream w s inp).1.relay = w.relay) ∨
    ((streamIter tr stream w s inp).2.1.registered = true ∧
      (streamIter tr stream w s inp).1.relay =
        (w.relay.RegisterDevice (streamIter tr stream w s inp).2.1.userID
          (streamIter tr stream w s inp).2.1.deviceType stream).1) := by
  cases hrecv : inp.recv with
  | EOF => rw [streamIter_EOF tr stream w s inp hrecv]; exact Or.inl ⟨hs, rfl⟩
  | err e => rw [streamIter_err tr stream w s inp e hrecv]; exact Or.inl ⟨hs, rfl⟩
  | packet p =>
    by_cases hu : p.UserId = ""
    · rw [streamIter_empty_user tr stream w s inp p hrecv hs hu]
      exact Or.inl ⟨rfl, rfl⟩
    · rw [streamIter_first_packet tr stream w s inp p hrecv hs hu]
      exact Or.inr ⟨rfl, rfl⟩

/-- The loop never calls `UnregisterDevice`. -/
theorem streamLoop_unregisterCalls (tr : Transport) (stream : StreamServer)
    (inputs : List StreamInput) :
    ∀ (w : World) (s : Session),
      (streamLoop tr stream w s inputs).1.unregisterCalls = w.unregisterCalls := by
  induction inputs with
  | nil => intro w s; rfl
  | cons inp rest ih =>
    intro w s
    have h1 := streamIter_unregisterCalls tr stream w s inp
    rw [streamLoop]
    rcases hres : streamIter tr stream w s inp with ⟨w1, s1, r⟩
    rw [hres] at h1
    cases r with
    | none =>
      simp only
      rw [ih w1 s1]
      exact h1
    | some r => exact h1

/-- From a registered session on, the loop changes neither the registry nor
the locals of `Stream`. -/
theorem streamLoop_registered_keeps (tr : Transport) (stream : StreamServer)
    (inputs : List StreamInput) :
    ∀ (w : World) (s : Session), s.registered = true →
      (streamLoop tr stream w s inputs).1.relay = w.relay ∧
      (streamLoop tr stream w s inputs).2.1 = s := by
  induction inputs with
  | nil => intro w s _; exact ⟨rfl, rfl⟩
  | cons inp rest ih =>
    intro w s hs
    have h1 := streamIter_registered_keeps tr stream w s inp hs
    rw [streamLoop]
    rcases hres : streamIter tr stream w s inp with ⟨w1, s1, r⟩
    rw [hres] at h1
    simp only at h1
    obtain ⟨hrel, hsess⟩ := h1
    subst hsess
    cases r with
    | none =>
      simp only
      have h2 := ih w1 s1 hs
      exact ⟨h2.1.trans hrel, h2.2⟩
    | some r => exact ⟨hrel, rfl⟩

/-- From an unregistered session on, the loop either leaves the session
unregistered and the registry as it was, or has registered the session's stream
under its locals and done nothing else to the registry. -/
theorem streamLoop_unregistered_relay (tr : Transport) (stream : StreamServer)
    (inputs : List StreamInput) :
    ∀ (w : World) (s : Session), s.registered = false →
      ((streamLoop tr stream w s inputs).2.1.registered = false ∧
        (streamLoop tr stream w s inputs).1.relay = w.relay) ∨
      ((streamLoop tr stream w s inputs).2.1.registered = true ∧
        (streamLoop tr stream w s inputs).1.relay =
          (w.relay.RegisterDevice (streamLoop tr stream w s inputs).2.1.userID
            (streamLoop tr stream w s inputs).2.1.deviceType stream).1) := by
  induction inputs with
  | nil => intro w s hs; exact Or.inl ⟨hs, rfl⟩
  | cons inp rest ih =>
    intro w s hs
    have h1 := streamIter_unregistered_relay tr stream w s inp hs
    rw [streamLoop]
    rcases hres : streamIter tr stream w s inp with ⟨w1, s1, r⟩
    rw [hres] at h1
    simp only at h1
    cases r with
    | some r => exact h1
    | none =>
      simp only
      rcases h1 with ⟨hreg, hrel⟩ | ⟨hreg, hrel⟩
      · rcases ih w1 s1 hreg with ⟨h2, h3⟩ | ⟨h2, h3⟩
        · exact Or.inl ⟨h2, h3.trans hrel⟩
        · exact Or.inr ⟨h2, by rw [h3, hrel]⟩
      · have h2 := streamLoop_registered_keeps tr stream rest w1 s1 hreg
        right
        rw [h2.2, h2.1]
        exact ⟨hreg, hrel⟩

/-- The ways an iteration makes `Stream` return: end of input, a receive error,
a failed `Send` of the ACK, or a failed `Send` of the error notice. -/
theorem streamIter_returns_iff (tr : Transport) (stream : StreamServer) (w : World)
    (s : Session) (inp : StreamInput) :
    (streamIter tr stream w s inp).2.2 ≠ none ↔
      (inp.recv = RecvResult.EOF ∨
       (∃ e, inp.recv = RecvResult.err e) ∨
       (∃ p, inp.recv = RecvResult.packet p ∧ s.registered = false ∧ p.UserId ≠ "" ∧
          tr w.sent stream (controlPacket inp.uuid p.UserId p.Source
            ((w.relay.RegisterDevice p.UserId p.Source stream).1.GetPairingInfo p.UserId))
            ≠ none) ∨
       (∃ p e, inp.recv = RecvResult.packet p ∧ s.registered = true ∧
          (RoutePacket tr w p).2 = some e ∧
          tr (RoutePacket tr w p).1.sent stream
            (errorPacket inp.uuid s.userID s.deviceType e) ≠ none)) := by
  cases hrecv : inp.recv with
  | EOF => rw [streamIter_EOF tr stream w s inp hrecv]; simp
  | err e => rw [streamIter_err tr stream w s inp e hrecv]; simp
  | packet p =>
    cases hs : s.registered with
    | true =>
      rw [streamIter_registered tr stream w s inp p hrecv hs]
      cases hr : (RoutePacket tr w p).2 with
      | none => simp [hr]
      | some e =>
        cases ht : tr (RoutePacket tr w p).1.sent stream
          (errorPacket inp.uuid s.userID s.deviceType e) <;> simp [hr, ht]
    | false =>
      by_cases hu : p.UserId = ""
      · rw [streamIter_empty_user tr stream w s inp p hrecv hs hu]
        simp [hu]
      · rw [streamIter_first_packet tr stream w s inp p hrecv hs hu]
        cases ht : tr w.sent stream (controlPacket inp.uuid p.UserId p.Source
          ((w.relay.RegisterDevice p.UserId p.Source stream).1.GetPairingInfo p.UserId)) <;>
          simp [hu, ht]

/-- C13: in every run of a session `UnregisterDevice(user, role)` is called
exactly once if `Stream` returned after the session had registered, and not at
all if it never registered or has not returned; `Stream` returns only on end of
input, a receive error, a failed ACK send or a failed error-notice send. When a
session that registered `(u, r)` returns, the lookup of `(u, r)` is absent
afterwards and every other entry of the registry is as before. -/
theorem session_unregisters_exactly_once (tr : Transport) (stream : StreamServer)
    (w : World) (inputs : List StreamInput) :
    (Service.Stream tr stream w inputs).2
      = (streamLoop tr stream w Session.start inputs).2.2 ∧
    (Service.Stream tr stream w inputs).1.unregisterCalls =
      w.unregisterCalls ++
        (if (streamLoop tr stream w Session.start inputs).2.2 ≠ none ∧
            (streamLoop tr stream w Session.start inputs).2.1.registered = true then
          [((streamLoop tr stream w Session.start inputs).2.1.userID,
            (streamLoop tr stream w Session.start inputs).2.1.deviceType)]
        else []) ∧
    ((streamLoop tr stream w Session.start inputs).2.2 ≠ none →
      (streamLoop tr stream w Session.start inputs).2.1.registered = true →
      ∀ u2 r2, (Service.Stream tr stream w inputs).1.relay.lookup u2 r2 =
        if u2 = (streamLoop tr stream w Session.start inputs).2.1.userID ∧
            r2 = (streamLoop tr stream w Session.start inputs).2.1.deviceType then none
        else w.relay.lookup u2 r2) ∧
    ((streamLoop tr stream w Session.start inputs).2.1.registered = false →
      (Service.Stream tr stream w inputs).1.relay = w.relay) ∧
    (∀ (w1 : World) (s1 : Session), s1.registered = true →
      (streamDefer w1 s1).unregisterCalls
        = w1.unregisterCalls ++ [(s1.userID, s1.deviceType)] ∧
      ∀ u2 r2, (streamDefer w1 s1).relay.lookup u2 r2 =
        if u2 = s1.userID ∧ r2 = s1.deviceType then none else w1.relay.lookup u2 r2) ∧
    (∀ (w1 : World) (s1 : Session) (inp : StreamInput),
      (streamIter tr stream w1 s1 inp).2.2 ≠ none →
        inp.recv = RecvResult.EOF ∨
        (∃ e, inp.recv = RecvResult.err e) ∨
        (∃ p, inp.recv = RecvResult.packet p ∧ s1.registered = false ∧ p.UserId ≠ "" ∧
          tr w1.sent stream (controlPacket inp.uuid p.UserId p.Source
            ((w1.relay.RegisterDevice p.UserId p.Source stream).1.GetPairingInfo p.UserId))
            ≠ none) ∨
        (∃ p e, inp.recv = RecvResult.packet p ∧ s1.registered = true ∧
          (RoutePacket tr w1 p).2 = some e ∧
          tr (RoutePacket tr w1 p).1.sent stream
            (errorPacket inp.uuid s1.userID s1.deviceType e) ≠ none)) := by
  have hcalls := streamLoop_unregisterCalls tr stream inputs w Session.start
  have hrel := streamLoop_unregistered_relay tr stream inputs w Session.start rfl
  have hdefer : ∀ (w1 : World) (s1 : Session), s1.registered = true →
      (streamDefer w1 s1).unregisterCalls
        = w1.unregisterCalls ++ [(s1.userID, s1.deviceType)] ∧
      ∀ u2 r2, (streamDefer w1 s1).relay.lookup u2 r2 =
        if u2 = s1.userID ∧ r2 = s1.deviceType then none else w1.relay.lookup u2 r2 := by
    intro w1 s1 hs1
    refine ⟨by simp [streamDefer, hs1], ?_⟩
    intro u2 r2
    simp only [streamDefer, hs1, if_true]
    exact lookup_UnregisterDevice w1.relay s1.userID s1.deviceType u2 r2
  unfold Service.Stream
  rcases hres : streamLoop tr stream w Session.start inputs with ⟨w1, s1, r⟩
  rw [hres] at hcalls hrel
  simp only at hcalls hrel
  refine ⟨?_, ?_, ?_, ?_, hdefer, ?_⟩
  · cases r <;> rfl
  · cases r with
    | none => simp [hcalls]
    | some r =>
      cases hs1 : s1.registered with
      | true => simp [(hdefer w1 s1 hs1).1, hcalls, hs1]
      | false => simp [streamDefer, hs1, hcalls]
  · intro hret hs1 u2 r2
    cases r with
    | none => exact absurd rfl hret
    | some r =>
      simp only
      rw [(hdefer w1 s1 hs1).2 u2 r2]
      rcases hrel with ⟨h1, _⟩ | ⟨_, h2⟩
      · simp only at hs1
        rw [h1] at hs1
        exact Bool.noConfusion hs1
      · rw [h2, lookup_RegisterDevice]
        by_cases hc : u2 = s1.userID ∧ r2 = s1.deviceType <;> simp [hc]
  · intro hs1
    simp only at hs1
    rcases hrel with ⟨_, h2⟩ | ⟨h1, _⟩
    · cases r with
      | none => exact h2
      | some r => simp [streamDefer, hs1, h2]
    · rw [h1] at hs1
      exact Bool.noConfusion hs1
  · intro w2 s2 inp
    exact (streamIter_returns_iff tr stream w2 s2 inp).1

/-- A whole session evaluated: the desktop of "u1" joins on stream 1 while the
mobile is registered, gets its ACK, and then its input ends. -/
theorem desktop_session_loop :
    streamLoop reliable 1 mobileOnly Session.start
        [{ recv := RecvResult.packet (helloPacket DeviceType.DESKTOP), uuid := "ack-1" },
         { recv := RecvResult.EOF, uuid := "unused" }]
      = ({ relay := (mobileOnly.relay.RegisterDevice "u1" DeviceType.DESKTOP 1).1
           sent :=
            [{ stream := 1
               packet := controlPacket "ack-1" "u1" DeviceType.DESKTOP
                 { DesktopOnline := true, MobileOnline := true }
               err := none }]
           unregisterCalls := [] },
         { userID := "u1", deviceType := DeviceType.DESKTOP, registered := true },
         some none) := by
  have h1 := streamIter_first_packet reliable 1 mobileOnly Session.start
    { recv := RecvResult.packet (helloPacket DeviceType.DESKTOP), uuid := "ack-1" }
    (helloPacket DeviceType.DESKTOP) rfl rfl (by decide)
  have hinfo : (mobileOnly.relay.RegisterDevice "u1" DeviceType.DESKTOP 1).1.GetPairingInfo "u1"
      = { DesktopOnline := true, MobileOnline := true } := by
    rw [GetPairingInfo_eq_lookup]
    simp [lookup_RegisterDevice, mobileOnly]
  have hp1 : (helloPacket DeviceType.DESKTOP).UserId = "u1" := rfl
  have hp2 : (helloPacket DeviceType.DESKTOP).Source = DeviceType.DESKTOP := rfl
  rw [hp1, hp2, hinfo] at h1
  rw [streamLoop, h1]
  simp only [reliable, Option.map_none']
  rw [streamLoop, streamIter_EOF _ _ _ _ _ rfl]
  rfl

/-- Witness for C13: scenario D, the desktop of "u1" registers on stream 1
while the mobile is registered on stream 2, and its input ends; the one call is
`UnregisterDevice("u1", DESKTOP)`, the desktop entry is gone and the mobile
entry is still there. -/
theorem session_unregisters_exactly_once_witness :
    (Service.Stream reliable 1 mobileOnly
        [{ recv := RecvResult.packet (helloPacket DeviceType.DESKTOP), uuid := "ack-1" },
         { recv := RecvResult.EOF, uuid := "unused" }]).1.unregisterCalls
      = [("u1", DeviceType.DESKTOP)] ∧
    (Service.Stream reliable 1 mobileOnly
        [{ recv := RecvResult.packet (helloPacket DeviceType.DESKTOP), uuid := "ack-1" },
         { recv := RecvResult.EOF, uuid := "unused" }]).1.relay.lookup "u1" DeviceType.DESKTOP
      = none ∧
    (Service.Stream reliable 1 mobileOnly
        [{ recv := RecvResult.packet (helloPacket DeviceType.DESKTOP), uuid := "ack-1" },
         { recv := RecvResult.EOF, uuid := "unused" }]).1.relay.lookup "u1" DeviceType.MOBILE
      = some { UserID := "u1", DeviceType := DeviceType.MOBILE, Stream := 2 } := by
  have h := session_unregisters_exactly_once reliable 1 mobileOnly
    [{ recv := RecvResult.packet (helloPacket DeviceType.DESKTOP), uuid := "ack-1" },
     { recv := RecvResult.EOF, uuid := "unused" }]
  rw [desktop_session_loop] at h
  obtain ⟨_, h2, h3, _⟩ := h
  refine ⟨?_, ?_, ?_⟩
  · rw [h2]; simp [mobileOnly]
  · rw [h3 (by simp) rfl]; simp
  · rw [h3 (by simp) rfl]
    simp [mobileOnly, lookup_RegisterDevice]

/-- C14: for every registry state, neither the handling of a packet by a
session that has not registered yet (registration plus ACK) nor the end of a
session (the returning `Recv` and the deferred unregistration) calls `Send` on
a stream other than the session's own: every new `Send` of the first is on the
session's stream and the second makes none, so an already registered peer gets
no packet when the other side joins or leaves. -/
theorem join_and_leave_send_only_on_own_stream (tr : Transport) (stream : StreamServer)
    (w : World) (s : Session) (inp : StreamInput) (hs : s.registered = false) :
    (∃ evs : List SendEvent,
      (streamIter tr stream w s inp).1.sent = w.sent ++ evs ∧
      evs.length ≤ 1 ∧
      ∀ e ∈ evs, e.stream = stream) ∧
    (∀ other : StreamServer, other ≠ stream →
      (streamIter tr stream w s inp).1.sent.countP (fun e => e.stream = other)
        = w.sent.countP (fun e => e.stream = other)) ∧
    (∀ (w1 : World) (s1 : Session), (streamDefer w1 s1).sent = w1.sent) ∧
    (∀ (w1 : World) (s1 : Session) (inp1 : StreamInput),
      (inp1.recv = RecvResult.EOF ∨ ∃ e, inp1.recv = RecvResult.err e) →
      (streamIter tr stream w1 s1 inp1).1.sent = w1.sent ∧
      (streamDefer (streamIter tr stream w1 s1 inp1).1
        (streamIter tr stream w1 s1 inp1).2.1).sent = w1.sent) := by
  have hdefer : ∀ (w1 : World) (s1 : Session), (streamDefer w1 s1).sent = w1.sent := by
    intro w1 s1
    unfold streamDefer
    cases s1.registered <;> rfl
  have hfirst : ∃ evs : List SendEvent,
      (streamIter tr stream w s inp).1.sent = w.sent ++ evs ∧
      evs.length ≤ 1 ∧
      ∀ e ∈ evs, e.stream = stream := by
    cases hrecv : inp.recv with
    | EOF =>
      rw [streamIter_EOF tr stream w s inp hrecv]
      exact ⟨[], by simp, by simp, by simp⟩
    | err e =>
      rw [streamIter_err tr stream w s inp e hrecv]
      exact ⟨[], by simp, by simp, by simp⟩
    | packet p =>
      by_cases hu : p.UserId = ""
      · rw [streamIter_empty_user tr stream w s inp p hrecv hs hu]
        exact ⟨[], by simp, by simp, by simp⟩
      · rw [streamIter_first_packet tr stream w s inp p hrecv hs hu]
        exact ⟨_, rfl, by simp, by simp⟩
  refine ⟨hfirst, ?_, hdefer, ?_⟩
  · intro other hother
    obtain ⟨evs, h1, _, h3⟩ := hfirst
    rw [h1, List.countP_append]
    have : evs.countP (fun e => decide (e.stream = other)) = 0 := by
      rw [List.countP_eq_zero]
      intro e he
      have := h3 e he
      simp [this, Ne.symm hother]
    omega
  · intro w1 s1 inp1 hend
    have hsent : (streamIter tr stream w1 s1 inp1).1.sent = w1.sent := by
      rcases hend with h | ⟨e, h⟩
      · rw [streamIter_EOF tr stream w1 s1 inp1 h]
      · rw [streamIter_err tr stream w1 s1 inp1 e h]
    exact ⟨hsent, by rw [hdefer, hsent]⟩

/-- Witness for C14: scenario B, the mobile of "u1" joins on stream 2 while
the desktop is registered on stream 1; stream 1 gets no `Send`. -/
theorem join_and_leave_send_only_on_own_stream_witness :
    (streamIter reliable 2 desktopOnly Session.start
        { recv := RecvResult.packet (helloPacket DeviceType.MOBILE), uuid := "ack-2" }).1.sent.countP
        (fun e => e.stream = 1)
      = desktopOnly.sent.countP (fun e => e.stream = 1) :=
  (join_and_leave_send_only_on_own_stream reliable 2 desktopOnly Session.start
    { recv := RecvResult.packet (helloPacket DeviceType.MOBILE), uuid := "ack-2" } rfl).2.1 1
    (by decide)

end streaming

/-! ## Unregistering twice, and the non-streaming requests -/

namespace relay

open pb

/-- In a registry without empty users, `UnregisterDevice` of an absent entry
changes nothing. -/
theorem UnregisterDevice_of_absent (rm : RelayManager) (u : String) (r : pb.DeviceType)
    (hinv : NoEmptyUser rm) (habs : rm.lookup u r = none) :
    rm.UnregisterDevice u r = rm := by
  unfold RelayManager.UnregisterDevice
  cases hc : rm.connections u with
  | none => rfl
  | some m =>
    have hmr : m r = none := by simpa [RelayManager.lookup, hc] using habs
    have hupd : Function.update m r none = m := by
      rw [← hmr]; exact Function.update_eq_self r m
    have hlen : mapLen m ≠ 0 := by
      intro h0
      obtain ⟨d, ds, hd⟩ := hinv u m hc
      rw [(mapLen_eq_zero m).1 h0 d] at hd
      exact Option.noConfusion hd
    simp only [hupd, hlen, if_false]
    have hconn : Function.update rm.connections u (some m) = rm.connections := by
      rw [← hc]; exact Function.update_eq_self u rm.connections
    rw [hconn]

/-- C15: for every registry state in which every user of the outer mapping has
at least one registered role, `UnregisterDevice(u, r)` leaves the registry
unchanged when no handle is registered for `(u, r)`; hence applying it twice
gives the same registry as applying it once. -/
theorem unregister_absent_noop_and_idempotent (rm : RelayManager) (u : String)
    (r : pb.DeviceType) (hinv : NoEmptyUser rm) :
    (rm.lookup u r = none → rm.UnregisterDevice u r = rm) ∧
    (rm.UnregisterDevice u r).UnregisterDevice u r = rm.UnregisterDevice u r := by
  refine ⟨UnregisterDevice_of_absent rm u r hinv, ?_⟩
  apply UnregisterDevice_of_absent _ u r (NoEmptyUser_UnregisterDevice rm u r hinv)
  rw [lookup_UnregisterDevice]
  simp

/-- The statement of C15 for the states reached from `NewRelayManager()`. -/
theorem unregister_absent_noop_reachable (tr : Transport) (calls : List Call) (u : String)
    (r : pb.DeviceType)
    (habs : (runCalls tr initWorld calls).relay.lookup u r = none) :
    (runCalls tr initWorld calls).relay.UnregisterDevice u r
      = (runCalls tr initWorld calls).relay :=
  UnregisterDevice_of_absent _ u r
    (NoEmptyUser_runCalls tr calls initWorld
      (by intro u2 m2 h2; simp [initWorld, NewRelayManager] at h2)) habs

/-- Witness for C15: with only the desktop of "u1" registered, unregistering
the mobile of "u1" changes nothing. -/
theorem unregister_absent_noop_and_idempotent_witness :
    desktopOnly.relay.UnregisterDevice "u1" DeviceType.MOBILE = desktopOnly.relay ∧
    (desktopOnly.relay.UnregisterDevice "u1" DeviceType.DESKTOP).UnregisterDevice "u1"
        DeviceType.DESKTOP
      = desktopOnly.relay.UnregisterDevice "u1" DeviceType.DESKTOP :=
  have hinv : NoEmptyUser desktopOnly.relay :=
    NoEmptyUser_RegisterDevice NewRelayManager "u1" DeviceType.DESKTOP 1
      (by intro u2 m2 h2; simp [NewRelayManager] at h2)
  have h := unregister_absent_noop_and_idempotent desktopOnly.relay "u1" DeviceType.MOBILE hinv
  ⟨h.1 (by
      simp only [desktopOnly, lookup_RegisterDevice]
      simp [RelayManager.lookup, NewRelayManager]),
    (unregister_absent_noop_and_idempotent desktopOnly.relay "u1" DeviceType.DESKTOP hinv).2⟩

end relay

namespace streaming

open pb relay

/-- C16: for every registry state and user `u`, `GetPairingStatus` returns
`PairingInfo = GetPairingInfo(u)` and `Paired = DesktopOnline AND MobileOnline`,
so `Paired` is true exactly when handles are registered for both `(u, DESKTOP)`
and `(u, MOBILE)`; it returns no error and leaves the registry unchanged. -/
theorem pairing_status_is_both_online (w : World) (req : PairingStatusRequest) :
    (Service.GetPairingStatus w req).2.1.PairingInfo = w.relay.GetPairingInfo req.UserId ∧
    (Service.GetPairingStatus w req).2.1.Paired
      = ((w.relay.GetPairingInfo req.UserId).DesktopOnline &&
          (w.relay.GetPairingInfo req.UserId).MobileOnline) ∧
    ((Service.GetPairingStatus w req).2.1.Paired = true ↔
      (∃ d, w.relay.lookup req.UserId DeviceType.DESKTOP = some d) ∧
      (∃ m, w.relay.lookup req.UserId DeviceType.MOBILE = some m)) ∧
    (Service.GetPairingStatus w req).2.2 = none ∧
    (Service.GetPairingStatus w req).1.relay = w.relay ∧
    (Service.GetPairingStatus w req).1 = w := by
  refine ⟨rfl, rfl, ?_, rfl, rfl, rfl⟩
  unfold Service.GetPairingStatus
  simp only [GetPairingInfo_eq_lookup, Bool.and_eq_true, Option.isSome_iff_exists]

/-- C17: for every registry state and request `(user, role)`, the non-streaming
`RegisterDevice` returns `Success = true` with `PairingInfo` equal to
`GetPairingInfo(user)` on the registry as it was before the call, and leaves
the registry unchanged: the caller's role is not registered, and a following
`GetPairingInfo(user)` gives the same answer. -/
theorem register_request_does_not_register (w : World) (sessionID : String)
    (req : RegisterRequest) :
    (Service.RegisterDevice w sessionID req).2.1.Success = true ∧
    (Service.RegisterDevice w sessionID req).2.1.SessionId = sessionID ∧
    (Service.RegisterDevice w sessionID req).2.1.PairingInfo
      = w.relay.GetPairingInfo req.UserId ∧
    (Service.RegisterDevice w sessionID req).2.2 = none ∧
    (Service.RegisterDevice w sessionID req).1.relay = w.relay ∧
    (Service.RegisterDevice w sessionID req).1 = w ∧
    (Service.RegisterDevice w sessionID req).1.relay.lookup req.UserId req.DeviceType
      = w.relay.lookup req.UserId req.DeviceType ∧
    (Service.RegisterDevice w sessionID req).1.relay.GetPairingInfo req.UserId
      = (Service.RegisterDevice w sessionID req).2.1.PairingInfo :=
  ⟨rfl, rfl, rfl, rfl, rfl, rfl, rfl, rfl⟩

/-! ## Displaced sessions and packets of other users -/

/-- `RoutePacket` when the destination is registered: one `Send` on its
stream, whose result is returned. -/
theorem RoutePacket_of_registered (tr : Transport) (w : World) (p : Packet)
    (ds : DeviceStream) (h : w.relay.lookup p.UserId p.Destination = some ds) :
    RoutePacket tr w p =
      ({ relay := w.relay
         sent := w.sent ++ [{ stream := ds.Stream, packet := p, err := tr w.sent ds.Stream p }]
         unregisterCalls := w.unregisterCalls },
       tr w.sent ds.Stream p) := by
  unfold RelayManager.lookup at h
  unfold RoutePacket
  cases hc : w.relay.connections p.UserId with
  | none => rw [hc] at h; simp at h
  | some m =>
    rw [hc] at h
    simp only at h
    simp only [h]
    cases ht : tr w.sent ds.Stream p <;> rfl

/-- `RoutePacket` when the destination is not registered: a no-connection
error and nothing else. -/
theorem RoutePacket_of_absent (tr : Transport) (w : World) (p : Packet)
    (h : w.relay.lookup p.UserId p.Destination = none) :
    RoutePacket tr w p =
      (w, some (if (w.relay.connections p.UserId).isNone then
          "no connections for user " ++ p.UserId
        else
          "destination device " ++ p.Destination.name ++ " not connected for user "
            ++ p.UserId)) := by
  unfold RelayManager.lookup at h
  unfold RoutePacket
  cases hc : w.relay.connections p.UserId with
  | none => simp
  | some m =>
    rw [hc] at h
    simp only at h
    simp [h]

/-- C19: the end of a displaced session removes its successor's registration.
Session A registers `hA` under `(u, r)` and goes on, session B then registers
`hB` under the same `(u, r)` and goes on, and A later returns: the deferred
`UnregisterDevice(u, r)` of A deletes the entry holding `hB`, so the lookup of
`(u, r)` is absent although B is still registered, and a packet routed to
`(u, r)` fails with a no-connection error without any `Send`. -/
theorem displaced_session_end_removes_successor (tr : Transport) (hA hB : StreamServer)
    (w wA wB wEnd : World) (sA0 sB0 sA sB sEnd : Session) (u : String) (r : pb.DeviceType)
    (inpA inpB : StreamInput) (pA pB : Packet) (more : List StreamInput) (ret : GoError)
    (hu : u ≠ "")
    (hsA0 : sA0.registered = false) (hrecvA : inpA.recv = RecvResult.packet pA)
    (hpAu : pA.UserId = u) (hpAr : pA.Source = r)
    (hsB0 : sB0.registered = false) (hrecvB : inpB.recv = RecvResult.packet pB)
    (hpBu : pB.UserId = u) (hpBr : pB.Source = r)
    (hstepA : streamIter tr hA w sA0 inpA = (wA, sA, none))
    (hstepB : streamIter tr hB wA sB0 inpB = (wB, sB, none))
    (hend : streamLoop tr hA wB sA more = (wEnd, sEnd, some ret)) :
    wA.relay.lookup u r = some { UserID := u, DeviceType := r, Stream := hA } ∧
    wB.relay.lookup u r = some { UserID := u, DeviceType := r, Stream := hB } ∧
    wEnd.relay.lookup u r = some { UserID := u, DeviceType := r, Stream := hB } ∧
    sB = { userID := u, deviceType := r, registered := true } ∧
    (streamDefer wEnd sEnd).unregisterCalls = w.unregisterCalls ++ [(u, r)] ∧
    (streamDefer wEnd sEnd).relay = wB.relay.UnregisterDevice u r ∧
    (streamDefer wEnd sEnd).relay.lookup u r = none ∧
    (∀ p : Packet, p.UserId = u → p.Destination = r →
      (RoutePacket tr (streamDefer wEnd sEnd) p).2 =
        some (if ((streamDefer wEnd sEnd).relay.connections u).isNone then
            "no connections for user " ++ u
          else
            "destination device " ++ r.name ++ " not connected for user " ++ u) ∧
      (RoutePacket tr (streamDefer wEnd sEnd) p).1.sent = (streamDefer wEnd sEnd).sent) := by
  have hu1 : pA.UserId ≠ "" := by rw [hpAu]; exact hu
  have hu2 : pB.UserId ≠ "" := by rw [hpBu]; exact hu
  have hA1 := streamIter_first_packet tr hA w sA0 inpA pA hrecvA hsA0 hu1
  rw [hstepA, hpAu, hpAr] at hA1
  have hB1 := streamIter_first_packet tr hB wA sB0 inpB pB hrecvB hsB0 hu2
  rw [hstepB, hpBu, hpBr] at hB1
  have hwA : wA.relay = (w.relay.RegisterDevice u r hA).1 := by
    have := congrArg (fun x => x.1.relay) hA1
    exact this
  have hsA : sA = { userID := u, deviceType := r, registered := true } := by
    have := congrArg (fun x => x.2.1) hA1
    exact this
  have hwB : wB.relay = (wA.relay.RegisterDevice u r hB).1 := by
    have := congrArg (fun x => x.1.relay) hB1
    exact this
  have hsB : sB = { userID := u, deviceType := r, registered := true } := by
    have := congrArg (fun x => x.2.1) hB1
    exact this
  have hcA : wA.unregisterCalls = w.unregisterCalls := by
    have := streamIter_unregisterCalls tr hA w sA0 inpA
    rw [hstepA] at this
    exact this
  have hcB : wB.unregisterCalls = wA.unregisterCalls := by
    have := streamIter_unregisterCalls tr hB wA sB0 inpB
    rw [hstepB] at this
    exact this
  have hcE : wEnd.unregisterCalls = wB.unregisterCalls := by
    have := streamLoop_unregisterCalls tr hA more wB sA
    rw [hend] at this
    exact this
  have hkeep := streamLoop_registered_keeps tr hA more wB sA (by rw [hsA])
  rw [hend] at hkeep
  simp only at hkeep
  obtain ⟨hrelE, hsE⟩ := hkeep
  have hdefer : (streamDefer wEnd sEnd).relay = wB.relay.UnregisterDevice u r := by
    rw [hsE, hsA]
    simp [streamDefer, hrelE]
  have hlook : (streamDefer wEnd sEnd).relay.lookup u r = none := by
    rw [hdefer, lookup_UnregisterDevice]
    simp
  refine ⟨?_, ?_, ?_, hsB, ?_, hdefer, hlook, ?_⟩
  · rw [hwA, lookup_RegisterDevice]; simp
  · rw [hwB, lookup_RegisterDevice]; simp
  · rw [hrelE, hwB, lookup_RegisterDevice]; simp
  · rw [hsE, hsA]
    simp [streamDefer, hcE, hcB, hcA]
  · intro p hpu hpd
    have habs : (streamDefer wEnd sEnd).relay.lookup p.UserId p.Destination = none := by
      rw [hpu, hpd]; exact hlook
    rw [RoutePacket_of_absent tr _ p habs, hpu, hpd]
    exact ⟨rfl, rfl⟩

/-- Witness for C19: two desktop sessions of "u1", on streams 1 and 2; when
the first one ends, the entry of the second one is gone. -/
theorem displaced_session_end_removes_successor_witness :
    joinB.1.relay.lookup "u1" DeviceType.DESKTOP
      = some { UserID := "u1", DeviceType := DeviceType.DESKTOP, Stream := 2 } ∧
    joinB.2.1 = { userID := "u1", deviceType := DeviceType.DESKTOP, registered := true } ∧
    (streamDefer endA.1 endA.2.1).relay.lookup "u1" DeviceType.DESKTOP = none :=
  have hA : joinA.2.2 = none := by
    unfold joinA
    rw [streamIter_first_packet reliable 1 initWorld Session.start _
      (helloPacket DeviceType.DESKTOP) rfl rfl (by decide)]
    rfl
  have hB : joinB.2.2 = none := by
    unfold joinB
    rw [streamIter_first_packet reliable 2 joinA.1 Session.start _
      (helloPacket DeviceType.DESKTOP) rfl rfl (by decide)]
    rfl
  have hE : endA.2.2 = some none := by
    unfold endA
    rw [streamLoop, streamIter_EOF _ _ _ _ _ rfl]
  have h := displaced_session_end_removes_successor reliable 1 2 initWorld joinA.1 joinB.1
    endA.1 Session.start Session.start joinA.2.1 joinB.2.1 endA.2.1 "u1" DeviceType.DESKTOP
    { recv := RecvResult.packet (helloPacket DeviceType.DESKTOP), uuid := "ack-a" }
    { recv := RecvResult.packet (helloPacket DeviceType.DESKTOP), uuid := "ack-b" }
    (helloPacket DeviceType.DESKTOP) (helloPacket DeviceType.DESKTOP)
    [{ recv := RecvResult.EOF, uuid := "unused" }] none
    (by decide) rfl rfl rfl rfl rfl rfl rfl rfl
    (by rw [← hA]; rfl) (by rw [← hB]; rfl) (by rw [← hE]; rfl)
  ⟨h.2.1, h.2.2.2.1, h.2.2.2.2.2.2.1⟩

/-- C20: while registered, the stream a packet is delivered to depends only on
the user and destination fields of the packet, not on the `(user, role)` the
session is bound to. A session bound to a user other than `p.UserId` sends `p`
on the handle registered for `(p.UserId, p.Destination)`, and two registered
sessions bound to different users that receive the same packet make the same
routing `Send` with the same result; what follows it is at most the error
notice each one sends on its own stream, and the registry is unchanged. -/
theorem routing_ignores_session_binding (tr : Transport) (w : World) (p : Packet)
    (ds : DeviceStream) (st1 st2 : StreamServer) (s1 s2 : Session)
    (inp1 inp2 : StreamInput)
    (hrecv1 : inp1.recv = RecvResult.packet p) (hrecv2 : inp2.recv = RecvResult.packet p)
    (hs1 : s1.registered = true) (hs2 : s2.registered = true)
    (_hother : p.UserId ≠ s1.userID) (_hdiff : s1.userID ≠ s2.userID)
    (hreg : w.relay.lookup p.UserId p.Destination = some ds) :
    ∃ t1 t2 : List SendEvent,
      (streamIter tr st1 w s1 inp1).1.sent
        = w.sent ++ { stream := ds.Stream, packet := p, err := tr w.sent ds.Stream p } :: t1 ∧
      (streamIter tr st2 w s2 inp2).1.sent
        = w.sent ++ { stream := ds.Stream, packet := p, err := tr w.sent ds.Stream p } :: t2 ∧
      (∀ e ∈ t1, e.stream = st1 ∧
        ∃ msg, e.packet.Payload = Payload.Control
          { ControlType := ControlType.ERROR, Message := msg }) ∧
      (∀ e ∈ t2, e.stream = st2 ∧
        ∃ msg, e.packet.Payload = Payload.Control
          { ControlType := ControlType.ERROR, Message := msg }) ∧
      t1.length = t2.length ∧
      (tr w.sent ds.Stream p = none → t1 = [] ∧ t2 = []) ∧
      (streamIter tr st1 w s1 inp1).1.relay = w.relay ∧
      (streamIter tr st2 w s2 inp2).1.relay = w.relay := by
  have hroute := RoutePacket_of_registered tr w p ds hreg
  have h1 := streamIter_registered tr st1 w s1 inp1 p hrecv1 hs1
  have h2 := streamIter_registered tr st2 w s2 inp2 p hrecv2 hs2
  rw [hroute] at h1 h2
  simp only at h1 h2
  rw [h1, h2]
  cases ht : tr w.sent ds.Stream p with
  | none =>
    exact ⟨[], [], by simp, by simp, by simp, by simp, rfl, fun _ => ⟨rfl, rfl⟩, rfl, rfl⟩
  | some e =>
    refine ⟨[{ stream := st1
               packet := errorPacket inp1.uuid s1.userID s1.deviceType e
               err := tr (w.sent ++ [{ stream := ds.Stream, packet := p, err := some e }]) st1
                 (errorPacket inp1.uuid s1.userID s1.deviceType e) }],
      [{ stream := st2
         packet := errorPacket inp2.uuid s2.userID s2.deviceType e
         err := tr (w.sent ++ [{ stream := ds.Stream, packet := p, err := some e }]) st2
           (errorPacket inp2.uuid s2.userID s2.deviceType e) }],
      by simp, by simp, ?_, ?_, rfl, ?_, rfl, rfl⟩
    · intro e1 he1
      simp only [List.mem_singleton] at he1
      subst he1
      exact ⟨rfl, e, rfl⟩
    · intro e2 he2
      simp only [List.mem_singleton] at he2
      subst he2
      exact ⟨rfl, e, rfl⟩
    · intro hnone
      exact Option.noConfusion hnone

/-- Witness for C20: sessions bound to "u1" (stream 2) and to "u3" (stream 4)
both receive a packet naming user "u2"; each delivers it to the desktop of
"u2" on stream 3. -/
theorem routing_ignores_session_binding_witness :
    ∃ t1 t2 : List SendEvent,
      (streamIter reliable 2 desktopOfU2
          { userID := "u1", deviceType := DeviceType.MOBILE, registered := true }
          { recv := RecvResult.packet packetForU2, uuid := "e1" }).1.sent
        = desktopOfU2.sent ++ { stream := 3, packet := packetForU2, err := none } :: t1 ∧
      (streamIter reliable 4 desktopOfU2
          { userID := "u3", deviceType := DeviceType.MOBILE, registered := true }
          { recv := RecvResult.packet packetForU2, uuid := "e2" }).1.sent
        = desktopOfU2.sent ++ { stream := 3, packet := packetForU2, err := none } :: t2 ∧
      t1 = [] ∧ t2 = [] :=
  match routing_ignores_session_binding reliable desktopOfU2 packetForU2
    { UserID := "u2", DeviceType := DeviceType.DESKTOP, Stream := 3 } 2 4
    { userID := "u1", deviceType := DeviceType.MOBILE, registered := true }
    { userID := "u3", deviceType := DeviceType.MOBILE, registered := true }
    { recv := RecvResult.packet packetForU2, uuid := "e1" }
    { recv := RecvResult.packet packetForU2, uuid := "e2" }
    rfl rfl rfl rfl (by decide) (by decide)
    (by simp [desktopOfU2, packetForU2, lookup_RegisterDevice]) with
  | ⟨t1, t2, h1, h2, _, _, _, h6, _, _⟩ => ⟨t1, t2, h1, h2, (h6 rfl).1, (h6 rfl).2⟩

end streaming

/-! ## Broadcast to a user without devices -/

namespace relay

open pb

/-- `BroadcastToUser` for a user that is not a key of the outer map: the
error of the first branch and nothing else. -/
theorem BroadcastToUser_of_absent_user (tr : Transport) (ord : MapOrder) (w : World)
    (u : String) (p : Packet) (h : w.relay.connections u = none) :
    BroadcastToUser tr ord w u p = (w, some ("no connections for user " ++ u)) := by
  unfold BroadcastToUser
  rw [h]

/-- In a registry without empty users, a user with no registered device is not
a key of the outer map. -/
theorem connections_eq_none_of_no_device (rm : RelayManager) (u : String)
    (hinv : NoEmptyUser rm) (hnone : ∀ r, rm.lookup u r = none) :
    rm.connections u = none := by
  cases hc : rm.connections u with
  | none => rfl
  | some m =>
    obtain ⟨d, s, hd⟩ := hinv u m hc
    have := hnone d
    simp [RelayManager.lookup, hc, hd] at this

/-- `BroadcastToUser` for a user with no registered device, in a registry
without empty users: the error of the first branch and nothing else. -/
theorem BroadcastToUser_of_no_device (tr : Transport) (ord : MapOrder) (w : World)
    (u : String) (p : Packet) (hinv : NoEmptyUser w.relay)
    (hnone : ∀ r, w.relay.lookup u r = none) :
    BroadcastToUser tr ord w u p = (w, some ("no connections for user " ++ u)) :=
  BroadcastToUser_of_absent_user tr ord w u p
    (connections_eq_none_of_no_device w.relay u hinv hnone)

/-- C21: for every registry state, that is every registry the calls of
`RelayManager` produce from `NewRelayManager()`, whatever was sent before, and
every user `u` with no registered device, `BroadcastToUser(u, p)` returns the
error "no connections for user u" although no `Send` failed, calls `Send` on no
stream, and leaves the registry unchanged. -/
theorem broadcast_no_device_no_connections (tr trCalls : Transport) (ord : MapOrder)
    (calls : List Call) (w : World) (u : String) (p : Packet)
    (hreach : w.relay = (runCalls trCalls initWorld calls).relay)
    (hnone : ∀ r, w.relay.lookup u r = none) :
    (BroadcastToUser tr ord w u p).2 = some ("no connections for user " ++ u) ∧
    (BroadcastToUser tr ord w u p).1.sent = w.sent ∧
    (BroadcastToUser tr ord w u p).1.relay = w.relay ∧
    (BroadcastToUser tr ord w u p).1 = w := by
  have hinv : NoEmptyUser w.relay := by
    rw [hreach]
    exact NoEmptyUser_runCalls trCalls calls initWorld
      (by intro u2 m2 h2; simp [initWorld, NewRelayManager] at h2)
  rw [BroadcastToUser_of_no_device tr ord w u p hinv hnone]
  exact ⟨rfl, rfl, rfl, rfl⟩

/-- Witness for C21: only the desktop of "u1" is registered and the broadcast
goes to user "u2". -/
theorem broadcast_no_device_no_connections_witness :
    desktopOnly.relay
      = (runCalls reliable initWorld [Call.RegisterDevice "u1" DeviceType.DESKTOP 1]).relay ∧
    (∀ r, desktopOnly.relay.lookup "u2" r = none) ∧
    (BroadcastToUser (failingOn 1) desktopFirst desktopOnly "u2"
        (dataPacket DeviceType.DESKTOP)).2 = some "no connections for user u2" ∧
    (BroadcastToUser (failingOn 1) desktopFirst desktopOnly "u2"
        (dataPacket DeviceType.DESKTOP)).1.sent = desktopOnly.sent :=
  have hnone : ∀ r, desktopOnly.relay.lookup "u2" r = none := by
    intro r
    simp only [desktopOnly, lookup_RegisterDevice]
    simp [RelayManager.lookup, NewRelayManager]
  have h := broadcast_no_device_no_connections (failingOn 1) reliable desktopFirst
    [Call.RegisterDevice "u1" DeviceType.DESKTOP 1] desktopOnly "u2"
    (dataPacket DeviceType.DESKTOP) rfl hnone
  ⟨rfl, hnone, by rw [h.1]; decide, h.2.1⟩

end relay
